import Mathlib

/-!
Shallow embedding of the SoulNad SBT contract system (IssuerRegistry,
SBTTemplate, SBTSession and the template/session SBTToken contract).

Addresses and bytes32 session ids are modelled as `Nat`, with `0` playing the
role of the zero address / `bytes32(0)`.  Solidity mappings are total
functions with the zero-initialised struct as default, exactly as in the EVM
storage model.  Every external function is a state transformer returning
`Option` — `none` models a revert, in which case the transaction leaves the
state unchanged (see `exec`).  `block.timestamp` is passed explicitly as
`now`.
-/

namespace SoulNad

/-- Point update of a `Nat`-keyed mapping. -/
def upd {α : Type} (f : Nat → α) (k : Nat) (v : α) : Nat → α :=
  fun x => if x = k then v else f x

/-- Point update of a doubly-keyed boolean mapping. -/
def upd2 (f : Nat → Nat → Bool) (a b : Nat) (v : Bool) : Nat → Nat → Bool :=
  fun x y => if x = a ∧ y = b then v else f x y

/-- `IssuerRegistry.IssuerInfo`. -/
structure IssuerInfo where
  name : String
  organization : String
  authorized : Bool
  addedAt : Nat
deriving Repr, DecidableEq

def emptyIssuer : IssuerInfo := ⟨"", "", false, 0⟩

/-- Storage of the `IssuerRegistry` contract (`owner` is the Ownable owner,
`paused` the Pausable flag).  The `issuerAddresses` enumeration array is
omitted: it only feeds the read-only enumeration views. -/
structure RegistryState where
  owner : Nat
  issuers : Nat → IssuerInfo
  paused : Bool

namespace IssuerRegistry

/-- `_addIssuerInternal`. -/
def addIssuerInternal (st : RegistryState) (issuer : Nat) (nm org : String)
    (now : Nat) : RegistryState :=
  { st with issuers := upd st.issuers issuer ⟨nm, org, true, now⟩ }

/-- The constructor: the owner is registered as the first authorized issuer. -/
def deploy (owner now : Nat) : RegistryState :=
  addIssuerInternal ⟨owner, fun _ => emptyIssuer, false⟩ owner
    ("System Admin") ("SBT System") now

/-- `isAuthorizedIssuer` (view). -/
def isAuthorizedIssuer (st : RegistryState) (issuer : Nat) : Bool :=
  (st.issuers issuer).authorized

/-- `addIssuer` (onlyOwner, whenNotPaused). -/
def addIssuer (st : RegistryState) (sender issuer : Nat) (nm org : String)
    (now : Nat) : Option RegistryState :=
  if sender ≠ st.owner then none
  else if st.paused then none
  else if issuer = 0 then none
  else if nm.length = 0 then none
  else if (st.issuers issuer).authorized then none
  else some (addIssuerInternal st issuer nm org now)

/-- `removeIssuer` (onlyOwner, whenNotPaused). -/
def removeIssuer (st : RegistryState) (sender issuer : Nat) :
    Option RegistryState :=
  if sender ≠ st.owner then none
  else if st.paused then none
  else if issuer = 0 then none
  else if ¬ (st.issuers issuer).authorized then none
  else if issuer = st.owner then none
  else
    let rec2 := { st.issuers issuer with authorized := false }
    some { st with issuers := upd st.issuers issuer rec2 }

/-- `updateIssuer` (onlyOwner, whenNotPaused). -/
def updateIssuer (st : RegistryState) (sender issuer : Nat) (nm org : String) :
    Option RegistryState :=
  if sender ≠ st.owner then none
  else if st.paused then none
  else if issuer = 0 then none
  else if ¬ (st.issuers issuer).authorized then none
  else if nm.length = 0 then none
  else
    let rec2 := { st.issuers issuer with name := nm, organization := org }
    some { st with issuers := upd st.issuers issuer rec2 }

/-- `pause` (onlyOwner; OZ `_pause` itself requires not yet paused). -/
def pause (st : RegistryState) (sender : Nat) : Option RegistryState :=
  if sender ≠ st.owner then none
  else if st.paused then none
  else some { st with paused := true }

/-- `unpause` (onlyOwner; OZ `_unpause` requires currently paused). -/
def unpause (st : RegistryState) (sender : Nat) : Option RegistryState :=
  if sender ≠ st.owner then none
  else if ¬ st.paused then none
  else some { st with paused := false }

end IssuerRegistry

/-- `SBTTemplate.Template`. -/
structure Template where
  templateId : Nat
  name : String
  description : String
  issuer : Nat
  createdAt : Nat
  active : Bool
deriving Repr, DecidableEq

def emptyTemplate : Template := ⟨0, "", "", 0, 0, false⟩

/-- Storage of the `SBTTemplate` contract.  The `issuerTemplates` enumeration
array is omitted (read-only views only). -/
structure TemplateState where
  owner : Nat
  templateIdCounter : Nat
  templates : Nat → Template
  paused : Bool

namespace SBTTemplate

/-- The `templateExists` modifier condition. -/
def templateExists (st : TemplateState) (tid : Nat) : Prop :=
  tid ≤ st.templateIdCounter ∧ 0 < tid

instance (st : TemplateState) (tid : Nat) : Decidable (templateExists st tid) :=
  inferInstanceAs (Decidable (_ ∧ _))

/-- `isTemplateActive` (view). -/
def isTemplateActive (st : TemplateState) (tid : Nat) : Bool :=
  if tid > st.templateIdCounter ∨ tid = 0 then false
  else (st.templates tid).active

/-- `getTemplate` (view; reverts for a nonexistent id). -/
def getTemplate (st : TemplateState) (tid : Nat) : Option Template :=
  if templateExists st tid then some (st.templates tid) else none

/-- `createTemplate` (onlyAuthorizedIssuer, whenNotPaused); returns the new id. -/
def createTemplate (reg : RegistryState) (st : TemplateState) (sender : Nat)
    (nm desc : String) (now : Nat) : Option (TemplateState × Nat) :=
  if ¬ IssuerRegistry.isAuthorizedIssuer reg sender then none
  else if st.paused then none
  else if nm.length = 0 then none
  else if desc.length = 0 then none
  else
    let tid := st.templateIdCounter + 1
    some ({ st with
      templateIdCounter := tid,
      templates := upd st.templates tid ⟨tid, nm, desc, sender, now, true⟩ }, tid)

/-- `updateTemplate` (templateExists, onlyTemplateIssuer, whenNotPaused;
additionally requires the template to be active). -/
def updateTemplate (st : TemplateState) (sender tid : Nat) (nm desc : String) :
    Option TemplateState :=
  if ¬ templateExists st tid then none
  else if (st.templates tid).issuer ≠ sender then none
  else if st.paused then none
  else if nm.length = 0 then none
  else if desc.length = 0 then none
  else if ¬ (st.templates tid).active then none
  else
    let rec2 := { st.templates tid with name := nm, description := desc }
    some { st with templates := upd st.templates tid rec2 }

/-- `deactivateTemplate`. -/
def deactivateTemplate (st : TemplateState) (sender tid : Nat) :
    Option TemplateState :=
  if ¬ templateExists st tid then none
  else if (st.templates tid).issuer ≠ sender then none
  else if st.paused then none
  else if ¬ (st.templates tid).active then none
  else
    let rec2 := { st.templates tid with active := false }
    some { st with templates := upd st.templates tid rec2 }

/-- `reactivateTemplate`. -/
def reactivateTemplate (st : TemplateState) (sender tid : Nat) :
    Option TemplateState :=
  if ¬ templateExists st tid then none
  else if (st.templates tid).issuer ≠ sender then none
  else if st.paused then none
  else if (st.templates tid).active then none
  else
    let rec2 := { st.templates tid with active := true }
    some { st with templates := upd st.templates tid rec2 }

/-- `pause`. -/
def pause (st : TemplateState) (sender : Nat) : Option TemplateState :=
  if sender ≠ st.owner then none
  else if st.paused then none
  else some { st with paused := true }

/-- `unpause`. -/
def unpause (st : TemplateState) (sender : Nat) : Option TemplateState :=
  if sender ≠ st.owner then none
  else if ¬ st.paused then none
  else some { st with paused := false }

end SBTTemplate

/-- `SBTSession.Session`. -/
structure Session where
  sessionId : Nat
  templateId : Nat
  maxMints : Nat
  currentMints : Nat
  endTimestamp : Nat
  issuer : Nat
  active : Bool
  title : String
deriving Repr, DecidableEq

def emptySession : Session := ⟨0, 0, 0, 0, 0, 0, false, ""⟩

/-- Storage of the `SBTSession` contract. The `issuerSessions` and
`hasClaimed` mappings are omitted: `issuerSessions` only feeds a read-only
view and `hasClaimed` is written by no function of this contract version. -/
structure SessionState where
  owner : Nat
  sessions : Nat → Session
  sessionNonce : Nat
  sbtTokenContract : Nat
  paused : Bool

namespace SBTSession

/-- The `sessionExists` modifier condition: a non-null issuer field. -/
def sessionExists (st : SessionState) (sid : Nat) : Prop :=
  (st.sessions sid).issuer ≠ 0

instance (st : SessionState) (sid : Nat) : Decidable (sessionExists st sid) :=
  inferInstanceAs (Decidable (_ ≠ _))

/-- `createSession` (onlyAuthorizedIssuer, whenNotPaused).  The keccak-derived
session id from `generateUniqueSessionId` is modelled as the extra input
`newId` (an unpredictable value chosen by the environment); the nonce
increment and the collision `require` are kept.  Returns the new id. -/
def createSession (reg : RegistryState) (tmpl : TemplateState)
    (st : SessionState) (sender tid maxM dur : Nat) (title : String)
    (newId now : Nat) : Option (SessionState × Nat) :=
  if ¬ IssuerRegistry.isAuthorizedIssuer reg sender then none
  else if st.paused then none
  else if ¬ SBTTemplate.isTemplateActive tmpl tid then none
  else if maxM = 0 then none
  else if dur = 0 then none
  else match SBTTemplate.getTemplate tmpl tid with
    | none => none
    | some t =>
      if t.issuer ≠ sender then none
      else if (st.sessions newId).issuer ≠ 0 then none
      else some ({ st with
        sessionNonce := st.sessionNonce + 1,
        sessions := upd st.sessions newId
          ⟨newId, tid, maxM, 0, now + dur, sender, true, title⟩ }, newId)

/-- `incrementMintCount` (onlySBTToken, sessionExists; deliberately without a
capacity or pause check). -/
def incrementMintCount (st : SessionState) (sender sid : Nat) :
    Option SessionState :=
  if sender ≠ st.sbtTokenContract then none
  else if ¬ sessionExists st sid then none
  else
    let rec2 := { st.sessions sid with
                  currentMints := (st.sessions sid).currentMints + 1 }
    some { st with sessions := upd st.sessions sid rec2 }

/-- `endSession` (sessionExists, onlySessionIssuer, whenNotPaused). -/
def endSession (st : SessionState) (sender sid : Nat) : Option SessionState :=
  if ¬ sessionExists st sid then none
  else if (st.sessions sid).issuer ≠ sender then none
  else if st.paused then none
  else if ¬ (st.sessions sid).active then none
  else
    let rec2 := { st.sessions sid with active := false }
    some { st with sessions := upd st.sessions sid rec2 }

/-- `getSession` (view; reverts for a nonexistent session). -/
def getSession (st : SessionState) (sid : Nat) : Option Session :=
  if sessionExists st sid then some (st.sessions sid) else none

/-- `isSessionClaimable` (view; false rather than reverting on unknown ids). -/
def isSessionClaimable (st : SessionState) (sid : Nat) (now : Nat) : Bool :=
  if (st.sessions sid).issuer = 0 then false
  else if ¬ (st.sessions sid).active then false
  else if now > (st.sessions sid).endTimestamp then false
  else if (st.sessions sid).currentMints ≥ (st.sessions sid).maxMints then false
  else true

/-- `getSessionStats` (view): `(currentMints, maxMints, remaining, timeRemaining)`. -/
def getSessionStats (st : SessionState) (sid now : Nat) :
    Option (Nat × Nat × Nat × Nat) :=
  if ¬ sessionExists st sid then none
  else
    let s := st.sessions sid
    some (s.currentMints, s.maxMints,
      if s.maxMints > s.currentMints then s.maxMints - s.currentMints else 0,
      if s.endTimestamp > now then s.endTimestamp - now else 0)

/-- `pause`. -/
def pause (st : SessionState) (sender : Nat) : Option SessionState :=
  if sender ≠ st.owner then none
  else if st.paused then none
  else some { st with paused := true }

/-- `unpause`. -/
def unpause (st : SessionState) (sender : Nat) : Option SessionState :=
  if sender ≠ st.owner then none
  else if ¬ st.paused then none
  else some { st with paused := false }

end SBTSession

/-- `SBTToken.SBTData` (template/session token contract). -/
structure SBTData where
  name : String
  description : String
  issuer : Nat
  mintedAt : Nat
  templateId : Nat
  sessionId : Nat
  revoked : Bool
deriving Repr, DecidableEq

def emptySBTData : SBTData := ⟨"", "", 0, 0, 0, 0, false⟩

/-- Storage of the template/session `SBTToken` contract.  `tokenOwner` is the
ERC721 `_ownerOf` mapping (0 = token does not exist); the ERC721Enumerable
bookkeeping is omitted (it only feeds read-only enumeration). -/
structure TokenState where
  owner : Nat
  nextTokenId : Nat
  sbtData : Nat → SBTData
  tokenOwner : Nat → Nat
  hasTokenFromTemplate : Nat → Nat → Bool
  hasTokenFromSession : Nat → Nat → Bool
  paused : Bool

/-- Combined state of the four deployed contracts.  `tokenAddr` is the
deployed address of the `SBTToken` contract, which it uses as `msg.sender`
when calling `SBTSession.incrementMintCount`. -/
structure SysState where
  registry : RegistryState
  tmpl : TemplateState
  sess : SessionState
  tok : TokenState
  tokenAddr : Nat

/-- The deployed system, as wired by the deploy script: one account `admin`
deploys and owns all four contracts, the registry constructor authorizes it,
and `setSBTTokenContract` links the session manager to the token contract. -/
def init (admin tokenAddr now : Nat) : SysState where
  registry := IssuerRegistry.deploy admin now
  tmpl := ⟨admin, 0, fun _ => emptyTemplate, false⟩
  sess := ⟨admin, fun _ => emptySession, 0, tokenAddr, false⟩
  tok := ⟨admin, 1, fun _ => emptySBTData, fun _ => 0,
          fun _ _ => false, fun _ _ => false, false⟩
  tokenAddr := tokenAddr

namespace SBTToken

/-- ERC721 `_safeMint`: recipient must be nonzero and the id unminted. -/
def safeMint (tk : TokenState) (toAddr tokenId : Nat) : Option TokenState :=
  if toAddr = 0 then none
  else if tk.tokenOwner tokenId ≠ 0 then none
  else some { tk with tokenOwner := upd tk.tokenOwner tokenId toAddr }

/-- `mintFromTemplate(toAddr, templateId)`
(onlyAuthorizedIssuer, whenNotPaused, nonReentrant). -/
def mintFromTemplate (sys : SysState) (sender toAddr tid now : Nat) :
    Option SysState :=
  if ¬ IssuerRegistry.isAuthorizedIssuer sys.registry sender then none
  else if sys.tok.paused then none
  else if toAddr = 0 then none
  else if ¬ SBTTemplate.isTemplateActive sys.tmpl tid then none
  else if sys.tok.hasTokenFromTemplate toAddr tid then none
  else match SBTTemplate.getTemplate sys.tmpl tid with
    | none => none
    | some t =>
      if t.issuer ≠ sender then none
      else
        let tokenId := sys.tok.nextTokenId
        match safeMint { sys.tok with nextTokenId := tokenId + 1 } toAddr tokenId with
        | none => none
        | some tk =>
          let d : SBTData := ⟨t.name, t.description, sender, now, tid, 0, false⟩
          some { sys with tok :=
            { tk with
              sbtData := upd tk.sbtData tokenId d,
              hasTokenFromTemplate := upd2 tk.hasTokenFromTemplate toAddr tid true } }

/-- `mintFromSession(toAddr, sessionId)`
(onlyAuthorizedIssuer, whenNotPaused, nonReentrant). -/
def mintFromSession (sys : SysState) (sender toAddr sid now : Nat) :
    Option SysState :=
  if ¬ IssuerRegistry.isAuthorizedIssuer sys.registry sender then none
  else if sys.tok.paused then none
  else if toAddr = 0 then none
  else if ¬ SBTSession.isSessionClaimable sys.sess sid now then none
  else if sys.tok.hasTokenFromSession toAddr sid then none
  else match SBTSession.getSession sys.sess sid with
    | none => none
    | some s =>
      if s.issuer ≠ sender then none
      else match SBTTemplate.getTemplate sys.tmpl s.templateId with
        | none => none
        | some t =>
          let tokenId := sys.tok.nextTokenId
          match safeMint { sys.tok with nextTokenId := tokenId + 1 } toAddr tokenId with
          | none => none
          | some tk =>
            let d : SBTData :=
              ⟨t.name, t.description, sender, now, s.templateId, sid, false⟩
            let tk2 :=
              { tk with
                sbtData := upd tk.sbtData tokenId d,
                hasTokenFromSession := upd2 tk.hasTokenFromSession toAddr sid true,
                hasTokenFromTemplate :=
                  upd2 tk.hasTokenFromTemplate toAddr s.templateId true }
            match SBTSession.incrementMintCount sys.sess sys.tokenAddr sid with
            | none => none
            | some ss => some { sys with tok := tk2, sess := ss }

/-- The per-recipient loop of `batchMintFromSession`: mints toAddr each recipient
in order against the token storage, with the template and session data read
once before the loop. -/
def mintLoop (tk : TokenState) (recipients : List Nat) (t : Template)
    (stid sid sender now : Nat) : Option TokenState :=
  match recipients with
  | [] => some tk
  | toAddr :: rest =>
    if toAddr = 0 then none
    else if tk.hasTokenFromSession toAddr sid then none
    else
      let tokenId := tk.nextTokenId
      match safeMint { tk with nextTokenId := tokenId + 1 } toAddr tokenId with
      | none => none
      | some tk2 =>
        let d : SBTData := ⟨t.name, t.description, sender, now, stid, sid, false⟩
        mintLoop
          { tk2 with
            sbtData := upd tk2.sbtData tokenId d,
            hasTokenFromSession := upd2 tk2.hasTokenFromSession toAddr sid true,
            hasTokenFromTemplate := upd2 tk2.hasTokenFromTemplate toAddr stid true }
          rest t stid sid sender now

/-- The final loop of `batchMintFromSession`: one `incrementMintCount` call
per recipient. -/
def incrementLoop (ss : SessionState) (tokenAddr sid n : Nat) :
    Option SessionState :=
  match n with
  | 0 => some ss
  | n + 1 =>
    match SBTSession.incrementMintCount ss tokenAddr sid with
    | none => none
    | some ss2 => incrementLoop ss2 tokenAddr sid n

/-- `batchMintFromSession(recipients, sessionId)`
(onlyAuthorizedIssuer, whenNotPaused, nonReentrant). -/
def batchMintFromSession (sys : SysState) (sender : Nat)
    (recipients : List Nat) (sid now : Nat) : Option SysState :=
  if ¬ IssuerRegistry.isAuthorizedIssuer sys.registry sender then none
  else if sys.tok.paused then none
  else if recipients.length = 0 then none
  else if recipients.length > 100 then none
  else if ¬ SBTSession.isSessionClaimable sys.sess sid now then none
  else match SBTSession.getSession sys.sess sid with
    | none => none
    | some s =>
      if s.issuer ≠ sender then none
      else match SBTSession.getSessionStats sys.sess sid now with
        | none => none
        | some (cur, maxM, _, _) =>
          if ¬ (cur + recipients.length ≤ maxM) then none
          else match SBTTemplate.getTemplate sys.tmpl s.templateId with
            | none => none
            | some t =>
              match mintLoop sys.tok recipients t s.templateId sid sender now with
              | none => none
              | some tk =>
                match incrementLoop sys.sess sys.tokenAddr sid
                    recipients.length with
                | none => none
                | some ss => some { sys with tok := tk, sess := ss }

/-- `claimFromSession(sessionId)` (whenNotPaused, nonReentrant — no issuer
authorization; the caller is the recipient and the recorded issuer is the
session's issuer). -/
def claimFromSession (sys : SysState) (caller sid now : Nat) :
    Option SysState :=
  if sys.tok.paused then none
  else if ¬ SBTSession.isSessionClaimable sys.sess sid now then none
  else if sys.tok.hasTokenFromSession caller sid then none
  else match SBTSession.getSession sys.sess sid with
    | none => none
    | some s =>
      match SBTTemplate.getTemplate sys.tmpl s.templateId with
      | none => none
      | some t =>
        let tokenId := sys.tok.nextTokenId
        match safeMint { sys.tok with nextTokenId := tokenId + 1 } caller tokenId with
        | none => none
        | some tk =>
          let d : SBTData :=
            ⟨t.name, t.description, s.issuer, now, s.templateId, sid, false⟩
          let tk2 :=
            { tk with
              sbtData := upd tk.sbtData tokenId d,
              hasTokenFromSession := upd2 tk.hasTokenFromSession caller sid true,
              hasTokenFromTemplate :=
                upd2 tk.hasTokenFromTemplate caller s.templateId true }
          match SBTSession.incrementMintCount sys.sess sys.tokenAddr sid with
          | none => none
          | some ss => some { sys with tok := tk2, sess := ss }

/-- `revokeSBT(tokenId)` (validToken, whenNotPaused; caller must be the
token's recorded issuer or the contract owner). -/
def revokeSBT (sys : SysState) (sender tokenId : Nat) : Option SysState :=
  if sys.tok.tokenOwner tokenId = 0 then none
  else if (sys.tok.sbtData tokenId).revoked then none
  else if sys.tok.paused then none
  else if ¬ (sender = (sys.tok.sbtData tokenId).issuer ∨ sender = sys.tok.owner)
  then none
  else
    let tOwner := sys.tok.tokenOwner tokenId
    let tid := (sys.tok.sbtData tokenId).templateId
    let sid := (sys.tok.sbtData tokenId).sessionId
    let dat := { sys.tok.sbtData tokenId with revoked := true }
    let tk :=
      { sys.tok with
        sbtData := upd sys.tok.sbtData tokenId dat,
        hasTokenFromTemplate := upd2 sys.tok.hasTokenFromTemplate tOwner tid false }
    let tk2 :=
      if sid ≠ 0 then
        { tk with hasTokenFromSession := upd2 tk.hasTokenFromSession tOwner sid false }
      else tk
    some { sys with tok := tk2 }

/-- `pause` on the token contract. -/
def pause (sys : SysState) (sender : Nat) : Option SysState :=
  if sender ≠ sys.tok.owner then none
  else if sys.tok.paused then none
  else some { sys with tok := { sys.tok with paused := true } }

/-- `unpause` on the token contract. -/
def unpause (sys : SysState) (sender : Nat) : Option SysState :=
  if sender ≠ sys.tok.owner then none
  else if ¬ sys.tok.paused then none
  else some { sys with tok := { sys.tok with paused := false } }

end SBTToken

/-- One external transaction against the system.  Every mutating entry point
of the four contracts is represented; each carries its own `msg.sender` and
`block.timestamp`.  `SBTSession.incrementMintCount` is not a separate
transaction: its `onlySBTToken` modifier makes any call whose sender is not
the token contract revert (`incrementMintCount_only_token` below), and the
token contract invokes it only inside its own mint paths, which are
represented. -/
inductive Op where
  | regAddIssuer (sender issuer : Nat) (nm org : String) (now : Nat)
  | regRemoveIssuer (sender issuer : Nat)
  | regUpdateIssuer (sender issuer : Nat) (nm org : String)
  | regPause (sender : Nat)
  | regUnpause (sender : Nat)
  | tmplCreate (sender : Nat) (nm desc : String) (now : Nat)
  | tmplUpdate (sender tid : Nat) (nm desc : String)
  | tmplDeactivate (sender tid : Nat)
  | tmplReactivate (sender tid : Nat)
  | tmplPause (sender : Nat)
  | tmplUnpause (sender : Nat)
  | sessCreate (sender tid maxM dur : Nat) (title : String) (newId now : Nat)
  | sessEnd (sender sid : Nat)
  | sessPause (sender : Nat)
  | sessUnpause (sender : Nat)
  | tokMintFromTemplate (sender toAddr tid now : Nat)
  | tokMintFromSession (sender toAddr sid now : Nat)
  | tokBatchMint (sender : Nat) (recipients : List Nat) (sid now : Nat)
  | tokClaim (caller sid now : Nat)
  | tokRevoke (sender tokenId : Nat)
  | tokPause (sender : Nat)
  | tokUnpause (sender : Nat)

/-- Semantics of one transaction: `none` is a revert. -/
def apply (op : Op) (sys : SysState) : Option SysState :=
  match op with
  | .regAddIssuer sender issuer nm org now =>
    (IssuerRegistry.addIssuer sys.registry sender issuer nm org now).map
      (fun r => { sys with registry := r })
  | .regRemoveIssuer sender issuer =>
    (IssuerRegistry.removeIssuer sys.registry sender issuer).map
      (fun r => { sys with registry := r })
  | .regUpdateIssuer sender issuer nm org =>
    (IssuerRegistry.updateIssuer sys.registry sender issuer nm org).map
      (fun r => { sys with registry := r })
  | .regPause sender =>
    (IssuerRegistry.pause sys.registry sender).map
      (fun r => { sys with registry := r })
  | .regUnpause sender =>
    (IssuerRegistry.unpause sys.registry sender).map
      (fun r => { sys with registry := r })
  | .tmplCreate sender nm desc now =>
    (SBTTemplate.createTemplate sys.registry sys.tmpl sender nm desc now).map
      (fun p => { sys with tmpl := p.1 })
  | .tmplUpdate sender tid nm desc =>
    (SBTTemplate.updateTemplate sys.tmpl sender tid nm desc).map
      (fun t => { sys with tmpl := t })
  | .tmplDeactivate sender tid =>
    (SBTTemplate.deactivateTemplate sys.tmpl sender tid).map
      (fun t => { sys with tmpl := t })
  | .tmplReactivate sender tid =>
    (SBTTemplate.reactivateTemplate sys.tmpl sender tid).map
      (fun t => { sys with tmpl := t })
  | .tmplPause sender =>
    (SBTTemplate.pause sys.tmpl sender).map (fun t => { sys with tmpl := t })
  | .tmplUnpause sender =>
    (SBTTemplate.unpause sys.tmpl sender).map (fun t => { sys with tmpl := t })
  | .sessCreate sender tid maxM dur title newId now =>
    (SBTSession.createSession sys.registry sys.tmpl sys.sess sender tid maxM
        dur title newId now).map
      (fun p => { sys with sess := p.1 })
  | .sessEnd sender sid =>
    (SBTSession.endSession sys.sess sender sid).map
      (fun ss => { sys with sess := ss })
  | .sessPause sender =>
    (SBTSession.pause sys.sess sender).map (fun ss => { sys with sess := ss })
  | .sessUnpause sender =>
    (SBTSession.unpause sys.sess sender).map (fun ss => { sys with sess := ss })
  | .tokMintFromTemplate sender toAddr tid now =>
    SBTToken.mintFromTemplate sys sender toAddr tid now
  | .tokMintFromSession sender toAddr sid now =>
    SBTToken.mintFromSession sys sender toAddr sid now
  | .tokBatchMint sender recipients sid now =>
    SBTToken.batchMintFromSession sys sender recipients sid now
  | .tokClaim caller sid now =>
    SBTToken.claimFromSession sys caller sid now
  | .tokRevoke sender tokenId =>
    SBTToken.revokeSBT sys sender tokenId
  | .tokPause sender => SBTToken.pause sys sender
  | .tokUnpause sender => SBTToken.unpause sys sender

/-- Transaction semantics as seen by the chain: a reverted transaction leaves
the state unchanged. -/
def exec (op : Op) (sys : SysState) : SysState :=
  match apply op sys with
  | some s => s
  | none => sys

/-- Run a list of transactions from a starting state. -/
def run (ops : List Op) (sys : SysState) : SysState :=
  match ops with
  | [] => sys
  | op :: rest => run rest (exec op sys)

/-- Capacity invariant of the session manager (spec §3):
`currentMints` never exceeds `maxMints`. -/
def CapInv (ss : SessionState) : Prop :=
  ∀ sid, (ss.sessions sid).currentMints ≤ (ss.sessions sid).maxMints

/-- Per-(owner, session) uniqueness (spec §3): two distinct tokens that are
owned by the same account, both non-revoked, and carry the same non-null
session id cannot coexist. -/
def SessUniq (tk : TokenState) : Prop :=
  ∀ a b, tk.tokenOwner a ≠ 0 → tk.tokenOwner b ≠ 0 →
    tk.tokenOwner a = tk.tokenOwner b →
    (tk.sbtData a).revoked = false → (tk.sbtData b).revoked = false →
    (tk.sbtData a).sessionId = (tk.sbtData b).sessionId →
    (tk.sbtData a).sessionId ≠ 0 → a = b

/-- Per-(owner, template) uniqueness as claimed by the spec: two distinct
non-revoked tokens held by one owner never carry the same template id. -/
def TmplUniq (tk : TokenState) : Prop :=
  ∀ a b, tk.tokenOwner a ≠ 0 → tk.tokenOwner b ≠ 0 →
    tk.tokenOwner a = tk.tokenOwner b →
    (tk.sbtData a).revoked = false → (tk.sbtData b).revoked = false →
    (tk.sbtData a).templateId = (tk.sbtData b).templateId → a = b

/-- Bookkeeping facts of the token ledger that make `SessUniq` inductive:
ids at or above `nextTokenId` are unminted, and every live session-minted
token is covered by its `hasTokenFromSession` claim marker. -/
def TokAux (tk : TokenState) : Prop :=
  (∀ a, tk.nextTokenId ≤ a → tk.tokenOwner a = 0) ∧
  (∀ a, tk.tokenOwner a ≠ 0 → (tk.sbtData a).revoked = false →
    (tk.sbtData a).sessionId ≠ 0 →
    tk.hasTokenFromSession (tk.tokenOwner a) (tk.sbtData a).sessionId = true)

/-- Full token-ledger invariant used in the inductive proofs. -/
def TokInv (tk : TokenState) : Prop :=
  TokAux tk ∧ SessUniq tk

/-- The registry invariant behind claim C7: the owner slot never moves away
from the bootstrap administrator and the administrator stays authorized. -/
def RegAdminInv (admin : Nat) (reg : RegistryState) : Prop :=
  reg.owner = admin ∧ (reg.issuers admin).authorized = true

/-- Conjunction of all inductive invariants of the deployed system. -/
def SysInv (admin : Nat) (sys : SysState) : Prop :=
  RegAdminInv admin sys.registry ∧ CapInv sys.sess ∧ TokInv sys.tok

/-! Concrete states used by counterexamples and witnesses.  Account `1` is
the deployer/administrator, `9` the address of the SBTToken contract, `7`,
`3`, `4`, `5`, `8` are end users, `42` is the generated session id. -/

def base : SysState := init 1 9 0

def withTemplate : SysState := exec (Op.tmplCreate 1 "Workshop" "W" 0) base

def withSession : SysState :=
  exec (Op.sessCreate 1 1 5 3600 "S" 42 0) withTemplate

def smallSession : SysState :=
  exec (Op.sessCreate 1 1 2 3600 "S" 42 0) withTemplate

def c2Pre : SysState := exec (Op.tokClaim 3 42 0) smallSession

def c1Pre : SysState := exec (Op.tokMintFromTemplate 1 7 1 0) withSession

def c1Post : SysState := exec (Op.tokMintFromSession 1 7 42 0) c1Pre

def c5Pre : SysState := exec (Op.tokMintFromTemplate 1 7 1 0) withTemplate

def c5Post : SysState := (SBTToken.revokeSBT c5Pre 1 1).getD c5Pre

def c9Post : SysState := exec (Op.regPause 1) withTemplate

def pausedAll : SysState :=
  run [Op.regPause 1, Op.tmplPause 1, Op.sessPause 1, Op.tokPause 1] base

def c10Pre : SysState := exec (Op.tmplDeactivate 1 1) withSession

def regWith5 : RegistryState :=
  (IssuerRegistry.addIssuer base.registry 1 5 "Alice" "Org" 0).getD base.registry

/-! ## Basic lemmas -/

theorem upd_same {α : Type} (f : Nat → α) (k : Nat) (v : α) :
    upd f k v k = v := by simp [upd]

theorem upd_other {α : Type} (f : Nat → α) (k x : Nat) (v : α)
    (h : x ≠ k) : upd f k v x = f x := by simp [upd, h]

theorem upd2_true_mono (f : Nat → Nat → Bool) (a b x y : Nat)
    (h : f x y = true) : upd2 f a b true x y = true := by
  unfold upd2; split <;> simp [h]

theorem upd2_same (f : Nat → Nat → Bool) (a b : Nat) (v : Bool) :
    upd2 f a b v a b = v := by simp [upd2]

theorem upd2_lookup (f : Nat → Nat → Bool) (a b x y : Nat) (v : Bool) :
    upd2 f a b v x y = if x = a ∧ y = b then v else f x y := rfl

/-- A direct `incrementMintCount` call from any account other than the token
contract reverts, so the unconditional increment is reachable only through
the token contract's mint paths (which is why it is not an `Op`). -/
theorem incrementMintCount_only_token (st : SessionState) (sender sid : Nat)
    (h : sender ≠ st.sbtTokenContract) :
    SBTSession.incrementMintCount st sender sid = none := by
  simp [SBTSession.incrementMintCount, h]

/-- Characterization of `isSessionClaimable`. -/
theorem claimable_iff (st : SessionState) (sid now : Nat) :
    SBTSession.isSessionClaimable st sid now = true ↔
      ((st.sessions sid).issuer ≠ 0 ∧ (st.sessions sid).active = true ∧
       now ≤ (st.sessions sid).endTimestamp ∧
       (st.sessions sid).currentMints < (st.sessions sid).maxMints) := by
  unfold SBTSession.isSessionClaimable
  split_ifs <;> simp_all

theorem getSession_eq_some (st : SessionState) (sid : Nat) (s : Session)
    (h : SBTSession.getSession st sid = some s) :
    s = st.sessions sid ∧ (st.sessions sid).issuer ≠ 0 := by
  unfold SBTSession.getSession SBTSession.sessionExists at h
  split_ifs at h with hex
  cases h
  exact ⟨rfl, hex⟩

theorem getTemplate_eq_some (st : TemplateState) (tid : Nat) (t : Template)
    (h : SBTTemplate.getTemplate st tid = some t) :
    t = st.templates tid ∧ SBTTemplate.templateExists st tid := by
  unfold SBTTemplate.getTemplate at h
  split_ifs at h with hex
  cases h
  exact ⟨rfl, hex⟩

theorem isTemplateActive_eq_true (st : TemplateState) (tid : Nat)
    (h : SBTTemplate.isTemplateActive st tid = true) :
    SBTTemplate.templateExists st tid ∧ (st.templates tid).active = true := by
  unfold SBTTemplate.isTemplateActive at h
  split_ifs at h with hc
  push_neg at hc
  exact ⟨⟨by omega, by omega⟩, h⟩

theorem incrementMintCount_eq_some (st st2 : SessionState) (sender sid : Nat)
    (h : SBTSession.incrementMintCount st sender sid = some st2) :
    st2.sessions = upd st.sessions sid
      { st.sessions sid with
          currentMints := (st.sessions sid).currentMints + 1 } ∧
    st2.owner = st.owner ∧ st2.sessionNonce = st.sessionNonce ∧
    st2.sbtTokenContract = st.sbtTokenContract ∧ st2.paused = st.paused := by
  unfold SBTSession.incrementMintCount at h
  split_ifs at h
  cases h
  exact ⟨rfl, rfl, rfl, rfl, rfl⟩

theorem safeMint_eq_some (tk tk2 : TokenState) (toAddr tokenId : Nat)
    (h : SBTToken.safeMint tk toAddr tokenId = some tk2) :
    toAddr ≠ 0 ∧ tk.tokenOwner tokenId = 0 ∧
    tk2 = { tk with tokenOwner := upd tk.tokenOwner tokenId toAddr } := by
  unfold SBTToken.safeMint at h
  split_ifs at h with h1 h2
  cases h
  exact ⟨h1, by simpa using h2, rfl⟩

theorem getSessionStats_eq_some (st : SessionState) (sid now : Nat)
    (q : Nat × Nat × Nat × Nat)
    (h : SBTSession.getSessionStats st sid now = some q) :
    q.1 = (st.sessions sid).currentMints ∧
    q.2.1 = (st.sessions sid).maxMints := by
  unfold SBTSession.getSessionStats at h
  split_ifs at h
  cases h
  exact ⟨rfl, rfl⟩

theorem mintFromTemplate_eq_some (sys s2 : SysState)
    (sender toAddr tid now : Nat)
    (h : SBTToken.mintFromTemplate sys sender toAddr tid now = some s2) :
    ∃ t, SBTTemplate.getTemplate sys.tmpl tid = some t ∧
      IssuerRegistry.isAuthorizedIssuer sys.registry sender = true ∧
      sys.tok.paused = false ∧
      SBTTemplate.isTemplateActive sys.tmpl tid = true ∧
      t.issuer = sender ∧
      toAddr ≠ 0 ∧ sys.tok.tokenOwner sys.tok.nextTokenId = 0 ∧
      sys.tok.hasTokenFromTemplate toAddr tid = false ∧
      s2 = { sys with tok :=
        { sys.tok with
          nextTokenId := sys.tok.nextTokenId + 1,
          tokenOwner := upd sys.tok.tokenOwner sys.tok.nextTokenId toAddr,
          sbtData := upd sys.tok.sbtData sys.tok.nextTokenId
            ⟨t.name, t.description, sender, now, tid, 0, false⟩,
          hasTokenFromTemplate :=
            upd2 sys.tok.hasTokenFromTemplate toAddr tid true } } := by
  unfold SBTToken.mintFromTemplate at h
  split_ifs at h with h1 h2 h3 h4 h5
  split at h
  · cases h
  next t hT =>
    split_ifs at h with h6
    dsimp only at h
    split at h
    · cases h
    next tk hS =>
      obtain ⟨hz, hfree, htk⟩ := safeMint_eq_some _ _ _ _ hS
      cases h
      refine ⟨t, hT, by simpa using h1, by simpa using h2, by simpa using h4,
        by simpa using h6, hz, by simpa using hfree, by simpa using h5, ?_⟩
      subst htk
      rfl

theorem revokeSBT_eq_some (sys s2 : SysState) (sender tokenId : Nat)
    (h : SBTToken.revokeSBT sys sender tokenId = some s2) :
    sys.tok.tokenOwner tokenId ≠ 0 ∧
    (sys.tok.sbtData tokenId).revoked = false ∧
    sys.tok.paused = false ∧
    (sender = (sys.tok.sbtData tokenId).issuer ∨ sender = sys.tok.owner) ∧
    s2.registry = sys.registry ∧ s2.tmpl = sys.tmpl ∧ s2.sess = sys.sess ∧
    s2.tokenAddr = sys.tokenAddr ∧
    s2.tok.owner = sys.tok.owner ∧
    s2.tok.nextTokenId = sys.tok.nextTokenId ∧
    s2.tok.paused = sys.tok.paused ∧
    s2.tok.tokenOwner = sys.tok.tokenOwner ∧
    s2.tok.sbtData = upd sys.tok.sbtData tokenId
      { sys.tok.sbtData tokenId with revoked := true } ∧
    s2.tok.hasTokenFromTemplate = upd2 sys.tok.hasTokenFromTemplate
      (sys.tok.tokenOwner tokenId) (sys.tok.sbtData tokenId).templateId false ∧
    s2.tok.hasTokenFromSession =
      (if (sys.tok.sbtData tokenId).sessionId ≠ 0 then
        upd2 sys.tok.hasTokenFromSession (sys.tok.tokenOwner tokenId)
          (sys.tok.sbtData tokenId).sessionId false
      else sys.tok.hasTokenFromSession) := by
  unfold SBTToken.revokeSBT at h
  split_ifs at h with h1 h2 h3 h4
  cases h
  by_cases hs : (sys.tok.sbtData tokenId).sessionId ≠ 0 <;>
    exact ⟨h1, by simpa using h2, by simpa using h3, by simpa using h4,
      rfl, rfl, rfl, rfl, by simp [hs], by simp [hs], by simp [hs],
      by simp [hs], by simp [hs], by simp [hs], by simp [hs]⟩

theorem addIssuer_eq_some (st st2 : RegistryState) (sender issuer : Nat)
    (nm org : String) (now : Nat)
    (h : IssuerRegistry.addIssuer st sender issuer nm org now = some st2) :
    st2.owner = st.owner ∧ st2.paused = st.paused ∧
    st2.issuers = upd st.issuers issuer ⟨nm, org, true, now⟩ := by
  unfold IssuerRegistry.addIssuer IssuerRegistry.addIssuerInternal at h
  split_ifs at h
  cases h
  exact ⟨rfl, rfl, rfl⟩

theorem removeIssuer_eq_some (st st2 : RegistryState) (sender issuer : Nat)
    (h : IssuerRegistry.removeIssuer st sender issuer = some st2) :
    st2.owner = st.owner ∧ st2.paused = st.paused ∧ issuer ≠ st.owner ∧
    (st.issuers issuer).authorized = true ∧
    st2.issuers = upd st.issuers issuer
      { st.issuers issuer with authorized := false } := by
  unfold IssuerRegistry.removeIssuer at h
  split_ifs at h with h1 h2 h3 h4 h5
  cases h
  exact ⟨rfl, rfl, h5, by simpa using h4, rfl⟩

theorem updateIssuer_eq_some (st st2 : RegistryState) (sender issuer : Nat)
    (nm org : String)
    (h : IssuerRegistry.updateIssuer st sender issuer nm org = some st2) :
    st2.owner = st.owner ∧ st2.paused = st.paused ∧
    st2.issuers = upd st.issuers issuer
      { st.issuers issuer with name := nm, organization := org } := by
  unfold IssuerRegistry.updateIssuer at h
  split_ifs at h
  cases h
  exact ⟨rfl, rfl, rfl⟩

theorem regPause_eq_some (st st2 : RegistryState) (sender : Nat)
    (h : IssuerRegistry.pause st sender = some st2) :
    st2.owner = st.owner ∧ st2.issuers = st.issuers := by
  unfold IssuerRegistry.pause at h
  split_ifs at h
  cases h
  exact ⟨rfl, rfl⟩

theorem regUnpause_eq_some (st st2 : RegistryState) (sender : Nat)
    (h : IssuerRegistry.unpause st sender = some st2) :
    st2.owner = st.owner ∧ st2.issuers = st.issuers := by
  unfold IssuerRegistry.unpause at h
  split_ifs at h
  cases h
  exact ⟨rfl, rfl⟩

theorem createSession_eq_some (reg : RegistryState) (tmpl : TemplateState)
    (st st2 : SessionState) (sender tid maxM dur : Nat) (title : String)
    (newId now ret : Nat)
    (h : SBTSession.createSession reg tmpl st sender tid maxM dur title
      newId now = some (st2, ret)) :
    (st.sessions newId).issuer = 0 ∧
    st2.owner = st.owner ∧ st2.sbtTokenContract = st.sbtTokenContract ∧
    st2.paused = st.paused ∧
    st2.sessions = upd st.sessions newId
      ⟨newId, tid, maxM, 0, now + dur, sender, true, title⟩ := by
  unfold SBTSession.createSession at h
  split_ifs at h with h1 h2 h3 h4 h5 h6
  · cases hT : SBTTemplate.getTemplate tmpl tid <;> simp [hT] at h
  · cases hT : SBTTemplate.getTemplate tmpl tid with
    | none => simp [hT] at h
    | some t =>
      simp only [hT] at h
      split_ifs at h with h7
      cases h
      exact ⟨by simpa using h6, rfl, rfl, rfl, rfl⟩

theorem endSession_eq_some (st st2 : SessionState) (sender sid : Nat)
    (h : SBTSession.endSession st sender sid = some st2) :
    st2.owner = st.owner ∧ st2.sbtTokenContract = st.sbtTokenContract ∧
    st2.paused = st.paused ∧
    st2.sessions = upd st.sessions sid
      { st.sessions sid with active := false } := by
  unfold SBTSession.endSession at h
  split_ifs at h
  cases h
  exact ⟨rfl, rfl, rfl, rfl⟩

theorem sessPause_eq_some (st st2 : SessionState) (sender : Nat)
    (h : SBTSession.pause st sender = some st2) :
    st2.sessions = st.sessions ∧ st2.sbtTokenContract = st.sbtTokenContract := by
  unfold SBTSession.pause at h
  split_ifs at h
  cases h
  exact ⟨rfl, rfl⟩

theorem sessUnpause_eq_some (st st2 : SessionState) (sender : Nat)
    (h : SBTSession.unpause st sender = some st2) :
    st2.sessions = st.sessions ∧ st2.sbtTokenContract = st.sbtTokenContract := by
  unfold SBTSession.unpause at h
  split_ifs at h
  cases h
  exact ⟨rfl, rfl⟩

theorem mintFromSession_eq_some (sys s2 : SysState) (sender toAddr sid now : Nat)
    (h : SBTToken.mintFromSession sys sender toAddr sid now = some s2) :
    ∃ t ss,
      IssuerRegistry.isAuthorizedIssuer sys.registry sender = true ∧
      sys.tok.paused = false ∧ toAddr ≠ 0 ∧
      SBTSession.isSessionClaimable sys.sess sid now = true ∧
      sys.tok.hasTokenFromSession toAddr sid = false ∧
      SBTTemplate.getTemplate sys.tmpl (sys.sess.sessions sid).templateId
        = some t ∧
      (sys.sess.sessions sid).issuer = sender ∧
      sys.tok.tokenOwner sys.tok.nextTokenId = 0 ∧
      SBTSession.incrementMintCount sys.sess sys.tokenAddr sid = some ss ∧
      s2 = { sys with
        sess := ss,
        tok := { sys.tok with
          nextTokenId := sys.tok.nextTokenId + 1,
          tokenOwner := upd sys.tok.tokenOwner sys.tok.nextTokenId toAddr,
          sbtData := upd sys.tok.sbtData sys.tok.nextTokenId
            ⟨t.name, t.description, sender, now,
             (sys.sess.sessions sid).templateId, sid, false⟩,
          hasTokenFromSession := upd2 sys.tok.hasTokenFromSession toAddr sid true,
          hasTokenFromTemplate := upd2 sys.tok.hasTokenFromTemplate toAddr
            (sys.sess.sessions sid).templateId true } } := by
  unfold SBTToken.mintFromSession at h
  split_ifs at h with h1 h2 h3 h4 h5
  split at h
  · cases h
  next s hS =>
    obtain ⟨hseq, hnz⟩ := getSession_eq_some _ _ _ hS
    subst hseq
    split_ifs at h with h6
    split at h
    · cases h
    next t hT =>
      dsimp only at h
      split at h
      · cases h
      next tk hSM =>
        obtain ⟨hz, hfree, htk⟩ := safeMint_eq_some _ _ _ _ hSM
        subst htk
        split at h
        · cases h
        next ss hI =>
          cases h
          exact ⟨t, ss, by simpa using h1, by simpa using h2, h3,
            by simpa using h4, by simpa using h5, hT, by simpa using h6,
            by simpa using hfree, hI, rfl⟩

theorem claimFromSession_eq_some (sys s2 : SysState) (caller sid now : Nat)
    (h : SBTToken.claimFromSession sys caller sid now = some s2) :
    ∃ t ss,
      sys.tok.paused = false ∧
      SBTSession.isSessionClaimable sys.sess sid now = true ∧
      sys.tok.hasTokenFromSession caller sid = false ∧
      SBTTemplate.getTemplate sys.tmpl (sys.sess.sessions sid).templateId
        = some t ∧
      caller ≠ 0 ∧ sys.tok.tokenOwner sys.tok.nextTokenId = 0 ∧
      SBTSession.incrementMintCount sys.sess sys.tokenAddr sid = some ss ∧
      s2 = { sys with
        sess := ss,
        tok := { sys.tok with
          nextTokenId := sys.tok.nextTokenId + 1,
          tokenOwner := upd sys.tok.tokenOwner sys.tok.nextTokenId caller,
          sbtData := upd sys.tok.sbtData sys.tok.nextTokenId
            ⟨t.name, t.description, (sys.sess.sessions sid).issuer, now,
             (sys.sess.sessions sid).templateId, sid, false⟩,
          hasTokenFromSession :=
            upd2 sys.tok.hasTokenFromSession caller sid true,
          hasTokenFromTemplate := upd2 sys.tok.hasTokenFromTemplate caller
            (sys.sess.sessions sid).templateId true } } := by
  unfold SBTToken.claimFromSession at h
  split_ifs at h with h1 h2 h3
  split at h
  · cases h
  next s hS =>
    obtain ⟨hseq, hnz⟩ := getSession_eq_some _ _ _ hS
    subst hseq
    split at h
    · cases h
    next t hT =>
      dsimp only at h
      split at h
      · cases h
      next tk hSM =>
        obtain ⟨hz, hfree, htk⟩ := safeMint_eq_some _ _ _ _ hSM
        subst htk
        split at h
        · cases h
        next ss hI =>
          cases h
          exact ⟨t, ss, by simpa using h1, by simpa using h2,
            by simpa using h3, hT, hz, by simpa using hfree, hI, rfl⟩

theorem batchMintFromSession_eq_some (sys s2 : SysState) (sender : Nat)
    (recipients : List Nat) (sid now : Nat)
    (h : SBTToken.batchMintFromSession sys sender recipients sid now
      = some s2) :
    ∃ t tk ss,
      IssuerRegistry.isAuthorizedIssuer sys.registry sender = true ∧
      sys.tok.paused = false ∧
      recipients.length ≠ 0 ∧ recipients.length ≤ 100 ∧
      SBTSession.isSessionClaimable sys.sess sid now = true ∧
      (sys.sess.sessions sid).issuer = sender ∧
      (sys.sess.sessions sid).currentMints + recipients.length ≤
        (sys.sess.sessions sid).maxMints ∧
      SBTTemplate.getTemplate sys.tmpl (sys.sess.sessions sid).templateId
        = some t ∧
      SBTToken.mintLoop sys.tok recipients t (sys.sess.sessions sid).templateId
        sid sender now = some tk ∧
      SBTToken.incrementLoop sys.sess sys.tokenAddr sid recipients.length
        = some ss ∧
      s2 = { sys with tok := tk, sess := ss } := by
  unfold SBTToken.batchMintFromSession at h
  split_ifs at h with h1 h2 h3 h4 h5
  split at h
  · cases h
  next s hS =>
    obtain ⟨hseq, hnz⟩ := getSession_eq_some _ _ _ hS
    subst hseq
    split_ifs at h with h6
    split at h
    · cases h
    next cur maxM r3 r4 hQ =>
      obtain ⟨hc, hm⟩ := getSessionStats_eq_some _ _ _ _ hQ
      split_ifs at h with h7
      split at h
      · cases h
      next t hT =>
        split at h
        · cases h
        next tk hL =>
          split at h
          · cases h
          next ss hI =>
            cases h
            refine ⟨t, tk, ss, by simpa using h1, by simpa using h2,
              by simpa using h3, by omega, by simpa using h5,
              by simpa using h6, ?_, hT, hL, hI, rfl⟩
            simp only at hc hm
            omega

theorem incrementLoop_eq_some (tokenAddr sid : Nat) :
    ∀ (n : Nat) (ss ss2 : SessionState),
    SBTToken.incrementLoop ss tokenAddr sid n = some ss2 →
    (∀ sid2, sid2 ≠ sid → ss2.sessions sid2 = ss.sessions sid2) ∧
    (ss2.sessions sid).currentMints = (ss.sessions sid).currentMints + n ∧
    (ss2.sessions sid).maxMints = (ss.sessions sid).maxMints ∧
    ss2.owner = ss.owner ∧ ss2.sessionNonce = ss.sessionNonce ∧
    ss2.sbtTokenContract = ss.sbtTokenContract ∧ ss2.paused = ss.paused := by
  intro n
  induction n with
  | zero =>
    intro ss ss2 h
    unfold SBTToken.incrementLoop at h
    cases h
    exact ⟨fun _ _ => rfl, rfl, rfl, rfl, rfl, rfl, rfl⟩
  | succ n ih =>
    intro ss ss2 h
    unfold SBTToken.incrementLoop at h
    split at h
    · cases h
    next ssm hInc =>
      obtain ⟨hsess, ho, hn, hc, hp⟩ := incrementMintCount_eq_some _ _ _ _ hInc
      obtain ⟨f1, f2, f3, f4, f5, f6, f7⟩ := ih ssm ss2 h
      refine ⟨?_, ?_, ?_, ?_, ?_, ?_, ?_⟩
      · intro sid2 hne
        rw [f1 sid2 hne, hsess, upd_other _ _ _ _ hne]
      · rw [f2, hsess, upd_same]; dsimp only; omega
      · rw [f3, hsess, upd_same]
      · rw [f4, ho]
      · rw [f5, hn]
      · rw [f6, hc]
      · rw [f7, hp]

/-- If some recipient in the batch is the zero address or already holds a
token from the session, the per-recipient loop fails. -/
theorem mintLoop_none_of_bad (t : Template) (stid sid sender now : Nat) :
    ∀ (recipients : List Nat) (tk : TokenState) (r : Nat),
    r ∈ recipients → (r = 0 ∨ tk.hasTokenFromSession r sid = true) →
    SBTToken.mintLoop tk recipients t stid sid sender now = none := by
  intro recipients
  induction recipients with
  | nil => intro tk r hr; cases hr
  | cons toAddr rest ih =>
    intro tk r hr hbad
    unfold SBTToken.mintLoop
    rcases List.mem_cons.mp hr with hEq | hMem
    · subst hEq
      rcases hbad with hz | hmark
      · simp [hz]
      · by_cases hz : r = 0
        · simp [hz]
        · simp [hz, hmark]
    · split_ifs with hz hmark
      · rfl
      · rfl
      · cases hSM : SBTToken.safeMint
            { tk with nextTokenId := tk.nextTokenId + 1 }
            toAddr tk.nextTokenId with
        | none => simp [hSM]
        | some tk2 =>
          obtain ⟨_, _, htk⟩ := safeMint_eq_some _ _ _ _ hSM
          subst htk
          simp only [hSM]
          apply ih _ r hMem
          rcases hbad with hz2 | hmark2
          · exact Or.inl hz2
          · exact Or.inr (upd2_true_mono _ _ _ _ _ hmark2)

/-- A session-path mint step (new token carrying session id `sid`, with the
`(recipient, sid)` marker checked false beforehand and set afterwards)
preserves the token-ledger invariant. -/
theorem mint_TokInv_aux (tk tkN : TokenState) (toAddr sid : Nat) (d : SBTData)
    (hN : tkN.nextTokenId = tk.nextTokenId + 1)
    (hO : tkN.tokenOwner = upd tk.tokenOwner tk.nextTokenId toAddr)
    (hD : tkN.sbtData = upd tk.sbtData tk.nextTokenId d)
    (hS : tkN.hasTokenFromSession = upd2 tk.hasTokenFromSession toAddr sid true)
    (hdsid : d.sessionId = sid)
    (hInv : TokInv tk)
    (hmark : tk.hasTokenFromSession toAddr sid = false) :
    TokInv tkN := by
  obtain ⟨⟨hfresh, hcover⟩, huniq⟩ := hInv
  refine ⟨⟨?_, ?_⟩, ?_⟩
  · intro a ha
    rw [hN] at ha
    rw [hO]
    simp only [upd_other _ _ _ _ (by omega : a ≠ tk.nextTokenId)]
    exact hfresh a (by omega)
  · intro a hoa hra hsa
    rw [hO] at hoa ⊢
    rw [hD] at hra hsa ⊢
    rw [hS]
    by_cases hA : a = tk.nextTokenId
    · subst hA
      simp only [upd_same] at hra hsa ⊢
      rw [hdsid]
      exact upd2_same _ _ _ _
    · simp only [upd_other _ _ _ _ hA] at hoa hra hsa ⊢
      exact upd2_true_mono _ _ _ _ _ (hcover a hoa hra hsa)
  · intro a b hoa hob hoab hra hrb hsab hsa
    rw [hO] at hoa hob hoab
    rw [hD] at hra hrb hsab hsa
    by_cases hA : a = tk.nextTokenId <;> by_cases hB : b = tk.nextTokenId
    · rw [hA, hB]
    · exfalso
      subst hA
      simp only [upd_same] at hoab hsab hsa
      simp only [upd_other _ _ _ _ hB] at hob hrb hsab hoab
      have hcb := hcover b hob hrb (by rw [← hsab]; exact hsa)
      rw [← hoab, ← hsab, hdsid] at hcb
      rw [hmark] at hcb
      cases hcb
    · exfalso
      subst hB
      simp only [upd_same] at hoab hsab
      simp only [upd_other _ _ _ _ hA] at hoa hra hsab hsa hoab
      have hca := hcover a hoa hra hsa
      rw [hoab, hsab, hdsid] at hca
      rw [hmark] at hca
      cases hca
    · simp only [upd_other _ _ _ _ hA] at hoa hra hsab hsa hoab
      simp only [upd_other _ _ _ _ hB] at hob hrb hsab hoab
      exact huniq a b hoa hob hoab hra hrb hsab hsa

/-- A direct-template mint step (new token with null session id, session
markers untouched) preserves the token-ledger invariant. -/
theorem mintTmpl_TokInv_aux (tk tkN : TokenState) (toAddr : Nat) (d : SBTData)
    (hN : tkN.nextTokenId = tk.nextTokenId + 1)
    (hO : tkN.tokenOwner = upd tk.tokenOwner tk.nextTokenId toAddr)
    (hD : tkN.sbtData = upd tk.sbtData tk.nextTokenId d)
    (hS : tkN.hasTokenFromSession = tk.hasTokenFromSession)
    (hdsid : d.sessionId = 0)
    (hInv : TokInv tk) : TokInv tkN := by
  obtain ⟨⟨hfresh, hcover⟩, huniq⟩ := hInv
  refine ⟨⟨?_, ?_⟩, ?_⟩
  · intro a ha
    rw [hN] at ha
    rw [hO]
    simp only [upd_other _ _ _ _ (by omega : a ≠ tk.nextTokenId)]
    exact hfresh a (by omega)
  · intro a hoa hra hsa
    rw [hO] at hoa ⊢
    rw [hD] at hra hsa ⊢
    rw [hS]
    by_cases hA : a = tk.nextTokenId
    · subst hA
      simp only [upd_same] at hsa
      exact absurd hdsid hsa
    · simp only [upd_other _ _ _ _ hA] at hoa hra hsa ⊢
      exact hcover a hoa hra hsa
  · intro a b hoa hob hoab hra hrb hsab hsa
    rw [hO] at hoa hob hoab
    rw [hD] at hra hrb hsab hsa
    by_cases hA : a = tk.nextTokenId
    · subst hA
      simp only [upd_same] at hsa
      exact absurd hdsid hsa
    · by_cases hB : b = tk.nextTokenId
      · subst hB
        simp only [upd_same] at hsab
        simp only [upd_other _ _ _ _ hA] at hsa hsab
        rw [hdsid] at hsab
        exact absurd hsab hsa
      · simp only [upd_other _ _ _ _ hA] at hoa hra hsab hsa hoab
        simp only [upd_other _ _ _ _ hB] at hob hrb hsab hoab
        exact huniq a b hoa hob hoab hra hrb hsab hsa

/-- Revocation preserves the token-ledger invariant. -/
theorem revoke_TokInv_aux (tk tkN : TokenState) (c : Nat)
    (hN : tkN.nextTokenId = tk.nextTokenId)
    (hO : tkN.tokenOwner = tk.tokenOwner)
    (hD : tkN.sbtData = upd tk.sbtData c
      { tk.sbtData c with revoked := true })
    (hS : tkN.hasTokenFromSession =
      (if (tk.sbtData c).sessionId ≠ 0 then
        upd2 tk.hasTokenFromSession (tk.tokenOwner c)
          (tk.sbtData c).sessionId false
      else tk.hasTokenFromSession))
    (hrevC : (tk.sbtData c).revoked = false)
    (hownC : tk.tokenOwner c ≠ 0)
    (hInv : TokInv tk) : TokInv tkN := by
  obtain ⟨⟨hfresh, hcover⟩, huniq⟩ := hInv
  refine ⟨⟨?_, ?_⟩, ?_⟩
  · intro a ha
    rw [hN] at ha
    rw [hO]
    exact hfresh a ha
  · intro a hoa hra hsa
    rw [hO] at hoa ⊢
    rw [hD] at hra hsa ⊢
    rw [hS]
    by_cases hA : a = c
    · subst hA
      simp only [upd_same] at hra
      cases hra
    · simp only [upd_other _ _ _ _ hA] at hoa hra hsa ⊢
      have hc := hcover a hoa hra hsa
      split_ifs with hs0
      · rw [upd2_lookup]
        by_cases hKey : tk.tokenOwner a = tk.tokenOwner c ∧
            (tk.sbtData a).sessionId = (tk.sbtData c).sessionId
        · exact absurd (huniq a c hoa hownC hKey.1 hra hrevC hKey.2 hsa) hA
        · simp only [if_neg hKey]
          exact hc
      · exact hc
  · intro a b hoa hob hoab hra hrb hsab hsa
    rw [hO] at hoa hob hoab
    rw [hD] at hra hrb hsab hsa
    by_cases hA : a = c
    · subst hA
      simp only [upd_same] at hra
      cases hra
    · by_cases hB : b = c
      · subst hB
        simp only [upd_same] at hrb
        cases hrb
      · simp only [upd_other _ _ _ _ hA] at hra hsab hsa
        simp only [upd_other _ _ _ _ hB] at hrb hsab
        exact huniq a b hoa hob hoab hra hrb hsab hsa

/-- The per-recipient batch loop preserves the token-ledger invariant. -/
theorem mintLoop_TokInv (t : Template) (stid sid sender now : Nat) :
    ∀ (recipients : List Nat) (tk tk2 : TokenState), TokInv tk →
    SBTToken.mintLoop tk recipients t stid sid sender now = some tk2 →
    TokInv tk2 := by
  intro recipients
  induction recipients with
  | nil =>
    intro tk tk2 hInv h
    unfold SBTToken.mintLoop at h
    cases h
    exact hInv
  | cons toAddr rest ih =>
    intro tk tk2 hInv h
    rw [SBTToken.mintLoop] at h
    split_ifs at h with hz hmark
    dsimp only at h
    split at h
    · cases h
    next tkm hSM =>
      obtain ⟨hz2, hfree, htk⟩ := safeMint_eq_some _ _ _ _ hSM
      subst htk
      refine ih _ _ ?_ h
      exact mint_TokInv_aux tk _ toAddr sid _ rfl rfl rfl rfl rfl hInv
        (by simpa using hmark)

/-- A guarded increment keeps `currentMints ≤ maxMints`. -/
theorem CapInv_increment (ss ss2 : SessionState) (sender sid : Nat)
    (h : SBTSession.incrementMintCount ss sender sid = some ss2)
    (hcap : CapInv ss)
    (hlt : (ss.sessions sid).currentMints < (ss.sessions sid).maxMints) :
    CapInv ss2 := by
  obtain ⟨hsess, _, _, _, _⟩ := incrementMintCount_eq_some _ _ _ _ h
  intro sid2
  rw [hsess]
  by_cases hA : sid2 = sid
  · subst hA
    simp only [upd_same]
    omega
  · simp only [upd_other _ _ _ _ hA]
    exact hcap sid2

/-- One successful transaction preserves every system invariant. -/
theorem apply_SysInv (admin : Nat) (op : Op) (sys s2 : SysState)
    (h : apply op sys = some s2) (hInv : SysInv admin sys) :
    SysInv admin s2 := by
  obtain ⟨⟨hadm1, hadm2⟩, hcap, htokinv⟩ := hInv
  cases op with
  | regAddIssuer sender issuer nm org now =>
    rcases Option.map_eq_some'.mp h with ⟨r, hr, rfl⟩
    obtain ⟨f1, _, f3⟩ := addIssuer_eq_some _ _ _ _ _ _ _ hr
    refine ⟨⟨by rw [f1, hadm1], ?_⟩, hcap, htokinv⟩
    show (r.issuers admin).authorized = true
    rw [f3]
    by_cases hA : admin = issuer
    · subst hA; simp [upd_same]
    · simp only [upd_other _ _ _ _ hA]; exact hadm2
  | regRemoveIssuer sender issuer =>
    rcases Option.map_eq_some'.mp h with ⟨r, hr, rfl⟩
    obtain ⟨f1, _, f3, _, f5⟩ := removeIssuer_eq_some _ _ _ _ hr
    refine ⟨⟨by rw [f1, hadm1], ?_⟩, hcap, htokinv⟩
    show (r.issuers admin).authorized = true
    rw [f5]
    have hne : admin ≠ issuer := by omega
    simp only [upd_other _ _ _ _ hne]
    exact hadm2
  | regUpdateIssuer sender issuer nm org =>
    rcases Option.map_eq_some'.mp h with ⟨r, hr, rfl⟩
    obtain ⟨f1, _, f3⟩ := updateIssuer_eq_some _ _ _ _ _ _ hr
    refine ⟨⟨by rw [f1, hadm1], ?_⟩, hcap, htokinv⟩
    show (r.issuers admin).authorized = true
    rw [f3]
    by_cases hA : admin = issuer
    · subst hA; simp [upd_same, hadm2]
    · simp only [upd_other _ _ _ _ hA]; exact hadm2
  | regPause sender =>
    rcases Option.map_eq_some'.mp h with ⟨r, hr, rfl⟩
    obtain ⟨f1, f2⟩ := regPause_eq_some _ _ _ hr
    exact ⟨⟨by rw [f1, hadm1], by rw [f2]; exact hadm2⟩, hcap, htokinv⟩
  | regUnpause sender =>
    rcases Option.map_eq_some'.mp h with ⟨r, hr, rfl⟩
    obtain ⟨f1, f2⟩ := regUnpause_eq_some _ _ _ hr
    exact ⟨⟨by rw [f1, hadm1], by rw [f2]; exact hadm2⟩, hcap, htokinv⟩
  | tmplCreate sender nm desc now =>
    rcases Option.map_eq_some'.mp h with ⟨p, hp, rfl⟩
    exact ⟨⟨hadm1, hadm2⟩, hcap, htokinv⟩
  | tmplUpdate sender tid nm desc =>
    rcases Option.map_eq_some'.mp h with ⟨t, ht, rfl⟩
    exact ⟨⟨hadm1, hadm2⟩, hcap, htokinv⟩
  | tmplDeactivate sender tid =>
    rcases Option.map_eq_some'.mp h with ⟨t, ht, rfl⟩
    exact ⟨⟨hadm1, hadm2⟩, hcap, htokinv⟩
  | tmplReactivate sender tid =>
    rcases Option.map_eq_some'.mp h with ⟨t, ht, rfl⟩
    exact ⟨⟨hadm1, hadm2⟩, hcap, htokinv⟩
  | tmplPause sender =>
    rcases Option.map_eq_some'.mp h with ⟨t, ht, rfl⟩
    exact ⟨⟨hadm1, hadm2⟩, hcap, htokinv⟩
  | tmplUnpause sender =>
    rcases Option.map_eq_some'.mp h with ⟨t, ht, rfl⟩
    exact ⟨⟨hadm1, hadm2⟩, hcap, htokinv⟩
  | sessCreate sender tid maxM dur title newId now =>
    rcases Option.map_eq_some'.mp h with ⟨p, hp, rfl⟩
    obtain ⟨st2, ret⟩ := p
    obtain ⟨g1, g2, g3, g4, g5⟩ :=
      createSession_eq_some _ _ _ _ _ _ _ _ _ _ _ _ hp
    refine ⟨⟨hadm1, hadm2⟩, ?_, htokinv⟩
    intro sid2
    show (st2.sessions sid2).currentMints ≤ (st2.sessions sid2).maxMints
    rw [g5]
    by_cases hA : sid2 = newId
    · subst hA; simp [upd_same]
    · simp only [upd_other _ _ _ _ hA]; exact hcap sid2
  | sessEnd sender sid =>
    rcases Option.map_eq_some'.mp h with ⟨ss, hss, rfl⟩
    obtain ⟨g1, g2, g3, g4⟩ := endSession_eq_some _ _ _ _ hss
    refine ⟨⟨hadm1, hadm2⟩, ?_, htokinv⟩
    intro sid2
    show (ss.sessions sid2).currentMints ≤ (ss.sessions sid2).maxMints
    rw [g4]
    by_cases hA : sid2 = sid
    · subst hA; simp only [upd_same]; exact hcap sid2
    · simp only [upd_other _ _ _ _ hA]; exact hcap sid2
  | sessPause sender =>
    rcases Option.map_eq_some'.mp h with ⟨ss, hss, rfl⟩
    obtain ⟨g1, g2⟩ := sessPause_eq_some _ _ _ hss
    refine ⟨⟨hadm1, hadm2⟩, ?_, htokinv⟩
    intro sid2
    show (ss.sessions sid2).currentMints ≤ (ss.sessions sid2).maxMints
    rw [g1]; exact hcap sid2
  | sessUnpause sender =>
    rcases Option.map_eq_some'.mp h with ⟨ss, hss, rfl⟩
    obtain ⟨g1, g2⟩ := sessUnpause_eq_some _ _ _ hss
    refine ⟨⟨hadm1, hadm2⟩, ?_, htokinv⟩
    intro sid2
    show (ss.sessions sid2).currentMints ≤ (ss.sessions sid2).maxMints
    rw [g1]; exact hcap sid2
  | tokMintFromTemplate sender toAddr tid now =>
    obtain ⟨t, hT, _, _, _, _, hz, hfree, hmk, rfl⟩ :=
      mintFromTemplate_eq_some _ _ _ _ _ _ h
    exact ⟨⟨hadm1, hadm2⟩, hcap,
      mintTmpl_TokInv_aux sys.tok _ toAddr _ rfl rfl rfl rfl rfl htokinv⟩
  | tokMintFromSession sender toAddr sid now =>
    obtain ⟨t, ss, _, _, hz, hclaim, hmk, hT, hiss, hfree, hI, rfl⟩ :=
      mintFromSession_eq_some _ _ _ _ _ _ h
    exact ⟨⟨hadm1, hadm2⟩,
      CapInv_increment _ _ _ _ hI hcap ((claimable_iff _ _ _).mp hclaim).2.2.2,
      mint_TokInv_aux sys.tok _ toAddr sid _ rfl rfl rfl rfl rfl htokinv hmk⟩
  | tokBatchMint sender recipients sid now =>
    obtain ⟨t, tk, ss, _, _, _, _, hclaim, hiss, hle, hT, hL, hI, rfl⟩ :=
      batchMintFromSession_eq_some _ _ _ _ _ _ h
    refine ⟨⟨hadm1, hadm2⟩, ?_, mintLoop_TokInv _ _ _ _ _ _ _ _ htokinv hL⟩
    obtain ⟨f1, f2, f3, _⟩ := incrementLoop_eq_some _ _ _ _ _ hI
    intro sid2
    show (ss.sessions sid2).currentMints ≤ (ss.sessions sid2).maxMints
    by_cases hA : sid2 = sid
    · subst hA; rw [f2, f3]; omega
    · rw [f1 sid2 hA]; exact hcap sid2
  | tokClaim caller sid now =>
    obtain ⟨t, ss, _, hclaim, hmk, hT, hz, hfree, hI, rfl⟩ :=
      claimFromSession_eq_some _ _ _ _ _ h
    exact ⟨⟨hadm1, hadm2⟩,
      CapInv_increment _ _ _ _ hI hcap ((claimable_iff _ _ _).mp hclaim).2.2.2,
      mint_TokInv_aux sys.tok _ caller sid _ rfl rfl rfl rfl rfl htokinv hmk⟩
  | tokRevoke sender tokenId =>
    obtain ⟨g1, g2, g3, g4, g5, g6, g7, g8, g9, g10, g11, g12, g13, g14, g15⟩ :=
      revokeSBT_eq_some _ _ _ _ h
    refine ⟨?_, ?_, ?_⟩
    · rw [g5]; exact ⟨hadm1, hadm2⟩
    · rw [g7]; exact hcap
    · exact revoke_TokInv_aux sys.tok _ tokenId g10 g12 g13 g15 g2 g1 htokinv
  | tokPause sender =>
    have h2 : SBTToken.pause sys sender = some s2 := h
    unfold SBTToken.pause at h2
    split_ifs at h2
    cases h2
    exact ⟨⟨hadm1, hadm2⟩, hcap, htokinv⟩
  | tokUnpause sender =>
    have h2 : SBTToken.unpause sys sender = some s2 := h
    unfold SBTToken.unpause at h2
    split_ifs at h2
    cases h2
    exact ⟨⟨hadm1, hadm2⟩, hcap, htokinv⟩

/-- Any transaction sequence preserves the system invariants. -/
theorem run_SysInv (admin : Nat) :
    ∀ (ops : List Op) (sys : SysState),
    SysInv admin sys → SysInv admin (run ops sys) := by
  intro ops
  induction ops with
  | nil => intro sys h; exact h
  | cons op rest ih =>
    intro sys hInv
    unfold run
    apply ih
    unfold exec
    cases hap : apply op sys with
    | none => exact hInv
    | some s2 => exact apply_SysInv admin op sys s2 hap hInv

/-- The freshly deployed system satisfies every invariant. -/
theorem init_SysInv (admin tokenAddr t0 : Nat) :
    SysInv admin (init admin tokenAddr t0) := by
  refine ⟨⟨rfl, ?_⟩, ?_, ⟨⟨?_, ?_⟩, ?_⟩⟩
  · show ((IssuerRegistry.deploy admin t0).issuers admin).authorized = true
    simp [IssuerRegistry.deploy, IssuerRegistry.addIssuerInternal, upd_same]
  · intro sid; exact Nat.le_refl 0
  · intro a ha; rfl
  · intro a hoa hra hsa; exact absurd rfl hoa
  · intro a b hoa hob hoab hra hrb hsab hsa; exact absurd rfl hoa

theorem incrementMintCount_isSome (st : SessionState) (sid : Nat)
    (hex : (st.sessions sid).issuer ≠ 0) :
    SBTSession.incrementMintCount st st.sbtTokenContract sid =
      some { st with sessions := upd st.sessions sid { st.sessions sid with currentMints := (st.sessions sid).currentMints + 1 } } := by
  unfold SBTSession.incrementMintCount SBTSession.sessionExists
  simp [hex]

theorem getSession_isSome (st : SessionState) (sid : Nat)
    (hex : (st.sessions sid).issuer ≠ 0) :
    SBTSession.getSession st sid = some (st.sessions sid) := by
  unfold SBTSession.getSession SBTSession.sessionExists
  rw [if_pos hex]

theorem getTemplate_isSome (st : TemplateState) (tid : Nat)
    (hex : SBTTemplate.templateExists st tid) :
    SBTTemplate.getTemplate st tid = some (st.templates tid) := by
  unfold SBTTemplate.getTemplate
  rw [if_pos hex]

/-- Sufficient conditions for `mintFromTemplate` to succeed. -/
theorem mintFromTemplate_isSome (sys : SysState) (sender toAddr tid now : Nat)
    (hAuth : IssuerRegistry.isAuthorizedIssuer sys.registry sender = true)
    (hPaused : sys.tok.paused = false)
    (hz : toAddr ≠ 0)
    (hActive : SBTTemplate.isTemplateActive sys.tmpl tid = true)
    (hmark : sys.tok.hasTokenFromTemplate toAddr tid = false)
    (hOwn : (sys.tmpl.templates tid).issuer = sender)
    (hFresh : sys.tok.tokenOwner sys.tok.nextTokenId = 0) :
    (SBTToken.mintFromTemplate sys sender toAddr tid now).isSome = true := by
  obtain ⟨hex, hact⟩ := isTemplateActive_eq_true _ _ hActive
  have hGT := getTemplate_isSome sys.tmpl tid hex
  unfold SBTToken.mintFromTemplate
  simp [hAuth, hPaused, hz, hActive, hmark, hGT, hOwn, SBTToken.safeMint,
    hFresh]

/-- Sufficient conditions for `claimFromSession` to succeed; note that
no condition refers to the issuer registry or to the template's
`active` flag. -/
theorem claimFromSession_isSome (sys : SysState) (caller sid now : Nat)
    (hPaused : sys.tok.paused = false)
    (hclaim : SBTSession.isSessionClaimable sys.sess sid now = true)
    (hmk : sys.tok.hasTokenFromSession caller sid = false)
    (hex : SBTTemplate.templateExists sys.tmpl
      (sys.sess.sessions sid).templateId)
    (hz : caller ≠ 0)
    (hFresh : sys.tok.tokenOwner sys.tok.nextTokenId = 0)
    (hlink : sys.sess.sbtTokenContract = sys.tokenAddr) :
    (SBTToken.claimFromSession sys caller sid now).isSome = true := by
  have hsex : (sys.sess.sessions sid).issuer ≠ 0 :=
    ((claimable_iff _ _ _).mp hclaim).1
  have hGS := getSession_isSome sys.sess sid hsex
  have hGT := getTemplate_isSome sys.tmpl _ hex
  have hInc := incrementMintCount_isSome sys.sess sid hsex
  rw [hlink] at hInc
  unfold SBTToken.claimFromSession
  simp [hPaused, hclaim, hmk, hGS, hGT, SBTToken.safeMint, hz, hFresh, hInc]

/-- Sufficient conditions for `mintFromSession` to succeed; the template's
`active` flag is again not among them. -/
theorem mintFromSession_isSome (sys : SysState) (sender toAddr sid now : Nat)
    (hAuth : IssuerRegistry.isAuthorizedIssuer sys.registry sender = true)
    (hPaused : sys.tok.paused = false)
    (hz : toAddr ≠ 0)
    (hclaim : SBTSession.isSessionClaimable sys.sess sid now = true)
    (hmk : sys.tok.hasTokenFromSession toAddr sid = false)
    (hIss : (sys.sess.sessions sid).issuer = sender)
    (hex : SBTTemplate.templateExists sys.tmpl
      (sys.sess.sessions sid).templateId)
    (hFresh : sys.tok.tokenOwner sys.tok.nextTokenId = 0)
    (hlink : sys.sess.sbtTokenContract = sys.tokenAddr) :
    (SBTToken.mintFromSession sys sender toAddr sid now).isSome = true := by
  have hsex : (sys.sess.sessions sid).issuer ≠ 0 :=
    ((claimable_iff _ _ _).mp hclaim).1
  have hGS := getSession_isSome sys.sess sid hsex
  have hGT := getTemplate_isSome sys.tmpl _ hex
  have hInc := incrementMintCount_isSome sys.sess sid hsex
  rw [hlink] at hInc
  unfold SBTToken.mintFromSession
  simp [hAuth, hPaused, hz, hclaim, hmk, hGS, hGT, hIss, SBTToken.safeMint,
    hFresh, hInc]

/-- Sufficient conditions for a singleton `batchMintFromSession` to succeed;
once more independent of the template's `active` flag. -/
theorem batch_single_isSome (sys : SysState) (sender toAddr sid now : Nat)
    (hAuth : IssuerRegistry.isAuthorizedIssuer sys.registry sender = true)
    (hPaused : sys.tok.paused = false)
    (hz : toAddr ≠ 0)
    (hclaim : SBTSession.isSessionClaimable sys.sess sid now = true)
    (hmk : sys.tok.hasTokenFromSession toAddr sid = false)
    (hIss : (sys.sess.sessions sid).issuer = sender)
    (hex : SBTTemplate.templateExists sys.tmpl
      (sys.sess.sessions sid).templateId)
    (hFresh : sys.tok.tokenOwner sys.tok.nextTokenId = 0)
    (hlink : sys.sess.sbtTokenContract = sys.tokenAddr) :
    (SBTToken.batchMintFromSession sys sender [toAddr] sid now).isSome
      = true := by
  have hsex : (sys.sess.sessions sid).issuer ≠ 0 :=
    ((claimable_iff _ _ _).mp hclaim).1
  have hlt : (sys.sess.sessions sid).currentMints <
      (sys.sess.sessions sid).maxMints :=
    ((claimable_iff _ _ _).mp hclaim).2.2.2
  have hGS := getSession_isSome sys.sess sid hsex
  have hGT := getTemplate_isSome sys.tmpl _ hex
  have hInc := incrementMintCount_isSome sys.sess sid hsex
  rw [hlink] at hInc
  have hStats : SBTSession.getSessionStats sys.sess sid now =
      some ((sys.sess.sessions sid).currentMints,
        (sys.sess.sessions sid).maxMints,
        if (sys.sess.sessions sid).maxMints >
            (sys.sess.sessions sid).currentMints then
          (sys.sess.sessions sid).maxMints -
            (sys.sess.sessions sid).currentMints
        else 0,
        if (sys.sess.sessions sid).endTimestamp > now then
          (sys.sess.sessions sid).endTimestamp - now
        else 0) := by
    unfold SBTSession.getSessionStats SBTSession.sessionExists
    simp [hsex]
  unfold SBTToken.batchMintFromSession
  simp [hAuth, hPaused, hclaim, hmk, hGS, hGT, hIss, hStats,
    SBTToken.safeMint, hz, hFresh, SBTToken.mintLoop,
    SBTToken.incrementLoop, hInc, Nat.lt_iff_add_one_le.mp hlt]

/-! ## Claim theorems -/

/-- C1 counterexample: the per-(owner, template) uniqueness invariant claimed
by the spec fails on the code.  In the reachable state `c1Post` (template 1
minted directly to user 7, then session 42 on the same template minted to
user 7 again), user 7 owns tokens 1 and 2, both non-revoked, both with
template id 1. -/
theorem C1_counterexample : ¬ TmplUniq c1Post.tok := by
  intro hU
  have h12 := hU 1 2 (by decide) (by decide) (by decide) (by decide)
    (by decide) (by decide)
  exact absurd h12 (by decide)

/-- C1 (amended): in every reachable state, each owner holds at most one
non-revoked token per session (`mintFromSession`, `batchMintFromSession`,
`claimFromSession` and `revokeSBT` maintain the `hasTokenFromSession`
markers); per-template uniqueness is enforced only against the
`hasTokenFromTemplate` marker on the `mintFromTemplate` path, so it can be
violated as soon as a session mint is involved (see the counterexample). -/
theorem C1_amended_session_uniqueness (ops : List Op)
    (admin tokenAddr t0 : Nat) :
    SessUniq (run ops (init admin tokenAddr t0)).tok :=
  (run_SysInv admin ops (init admin tokenAddr t0)
    (init_SysInv admin tokenAddr t0)).2.2.2

/-- C2: `batchMintFromSession` fails as a whole — leaving the state
completely unchanged — whenever the batch is empty, exceeds 100 recipients,
would push `currentMints` past `maxMints` (the single capacity pre-check),
or contains a recipient that is the zero address or already holds a token
from the session. -/
theorem C2_batch_atomic_failure (sys : SysState) (sender : Nat)
    (recipients : List Nat) (sid now : Nat)
    (h : recipients = [] ∨ 100 < recipients.length ∨
      (sys.sess.sessions sid).maxMints <
        (sys.sess.sessions sid).currentMints + recipients.length ∨
      ∃ r ∈ recipients, r = 0 ∨ sys.tok.hasTokenFromSession r sid = true) :
    SBTToken.batchMintFromSession sys sender recipients sid now = none ∧
    exec (Op.tokBatchMint sender recipients sid now) sys = sys := by
  have hnone :
      SBTToken.batchMintFromSession sys sender recipients sid now = none := by
    cases hres : SBTToken.batchMintFromSession sys sender recipients sid now with
    | none => rfl
    | some s2 =>
      exfalso
      obtain ⟨t, tk, ss, _, _, hlen0, hlen100, hclaim, hiss, hle, hT, hL, hI, _⟩ :=
        batchMintFromSession_eq_some _ _ _ _ _ _ hres
      rcases h with hE | hB | hC | ⟨r, hr, hbad⟩
      · exact hlen0 (by simp [hE])
      · omega
      · omega
      · have hLnone := mintLoop_none_of_bad t
          (sys.sess.sessions sid).templateId sid sender now recipients
          sys.tok r hr hbad
        rw [hLnone] at hL
        cases hL
  refine ⟨hnone, ?_⟩
  have happ : apply (Op.tokBatchMint sender recipients sid now) sys = none :=
    hnone
  unfold exec
  rw [happ]

/-- C2 witness: the spec scenario — session 42 has `maxMints = 2` and one
claim already recorded; a batch of two recipients reverts and leaves the
state unchanged. -/
theorem C2_witness :
    SBTToken.batchMintFromSession c2Pre 1 [4, 5] 42 0 = none ∧
    exec (Op.tokBatchMint 1 [4, 5] 42 0) c2Pre = c2Pre :=
  C2_batch_atomic_failure c2Pre 1 [4, 5] 42 0
    (Or.inr (Or.inr (Or.inl (by decide))))

/-- C3: in every state reachable from deployment by any sequence of
transactions — any mix of single, self-claim and batch mints included —
every session satisfies `currentMints ≤ maxMints`, even though
`incrementMintCount` itself increments unconditionally. -/
theorem C3_capacity_invariant (ops : List Op)
    (admin tokenAddr t0 sid : Nat) :
    ((run ops (init admin tokenAddr t0)).sess.sessions sid).currentMints ≤
      ((run ops (init admin tokenAddr t0)).sess.sessions sid).maxMints :=
  (run_SysInv admin ops (init admin tokenAddr t0)
    (init_SysInv admin tokenAddr t0)).2.1 sid

/-- C4: `isSessionClaimable(sessionId)` returns true iff the session exists
(non-null issuer field), its `active` flag is set, the current time is at
most `endTimestamp`, and `currentMints < maxMints`; for any other id —
unknown ones included — it returns false rather than reverting. -/
theorem C4_isSessionClaimable_characterization (st : SessionState)
    (sid now : Nat) :
    SBTSession.isSessionClaimable st sid now = true ↔
      ((st.sessions sid).issuer ≠ 0 ∧ (st.sessions sid).active = true ∧
       now ≤ (st.sessions sid).endTimestamp ∧
       (st.sessions sid).currentMints < (st.sessions sid).maxMints) :=
  claimable_iff st sid now

/-- C5: `revokeSBT` succeeds only when the token exists, is not yet revoked
and the caller is its recorded issuer or the administrator; on success it
sets `revoked`, clears the (owner, template) marker, clears the
(owner, session) marker when the token carries a session id, leaves the
session manager (hence every `currentMints`) untouched, and a subsequent
mint of the same template to that owner then passes all its checks. -/
theorem C5_revokeSBT_correct (sys : SysState) (sender tokenId : Nat)
    (h : (SBTToken.revokeSBT sys sender tokenId).isSome = true) :
    (sys.tok.tokenOwner tokenId ≠ 0 ∧
     (sys.tok.sbtData tokenId).revoked = false ∧
     (sender = (sys.tok.sbtData tokenId).issuer ∨ sender = sys.tok.owner)) ∧
    ((((SBTToken.revokeSBT sys sender tokenId).getD sys).tok.sbtData
        tokenId).revoked = true ∧
     ((SBTToken.revokeSBT sys sender tokenId).getD sys).tok.hasTokenFromTemplate
       (sys.tok.tokenOwner tokenId) (sys.tok.sbtData tokenId).templateId
       = false ∧
     ((sys.tok.sbtData tokenId).sessionId ≠ 0 →
       ((SBTToken.revokeSBT sys sender tokenId).getD
         sys).tok.hasTokenFromSession (sys.tok.tokenOwner tokenId)
         (sys.tok.sbtData tokenId).sessionId = false) ∧
     ((SBTToken.revokeSBT sys sender tokenId).getD sys).sess = sys.sess) ∧
    (∀ sender2 now2,
      IssuerRegistry.isAuthorizedIssuer sys.registry sender2 = true →
      sys.tok.paused = false →
      SBTTemplate.isTemplateActive sys.tmpl
        (sys.tok.sbtData tokenId).templateId = true →
      (sys.tmpl.templates (sys.tok.sbtData tokenId).templateId).issuer
        = sender2 →
      sys.tok.tokenOwner sys.tok.nextTokenId = 0 →
      (SBTToken.mintFromTemplate
        ((SBTToken.revokeSBT sys sender tokenId).getD sys) sender2
        (sys.tok.tokenOwner tokenId) (sys.tok.sbtData tokenId).templateId
        now2).isSome = true) := by
  obtain ⟨s2, hs2⟩ := Option.isSome_iff_exists.mp h
  obtain ⟨g1, g2, g3, g4, g5, g6, g7, g8, g9, g10, g11, g12, g13, g14, g15⟩ :=
    revokeSBT_eq_some _ _ _ _ hs2
  simp only [hs2, Option.getD_some]
  refine ⟨⟨g1, g2, g4⟩, ⟨?_, ?_, ?_, g7⟩, ?_⟩
  · rw [g13]; simp [upd_same]
  · rw [g14]; exact upd2_same _ _ _ _
  · intro hs0
    rw [g15, if_pos hs0]
    exact upd2_same _ _ _ _
  · intro sender2 now2 hAuth hPaused hActive hOwn hFresh
    apply mintFromTemplate_isSome
    · rw [g5]; exact hAuth
    · rw [g11]; exact hPaused
    · exact g1
    · rw [g6]; exact hActive
    · rw [g14]; exact upd2_same _ _ _ _
    · rw [g6]; exact hOwn
    · rw [g12, g10]; exact hFresh

/-- C5 witness: token 1 (template 1, owner 7) is revoked by its issuer and a
re-mint of the same template to user 7 then succeeds. -/
theorem C5_witness :
    ((((SBTToken.revokeSBT c5Pre 1 1).getD c5Pre).tok.sbtData 1).revoked
      = true) ∧
    ((SBTToken.mintFromTemplate ((SBTToken.revokeSBT c5Pre 1 1).getD c5Pre) 1
      (c5Pre.tok.tokenOwner 1) (c5Pre.tok.sbtData 1).templateId 5).isSome
      = true) :=
  ⟨(C5_revokeSBT_correct c5Pre 1 1 (by decide)).2.1.1,
   (C5_revokeSBT_correct c5Pre 1 1 (by decide)).2.2 1 5 (by decide)
     (by decide) (by decide) (by decide) (by decide)⟩

/-- C6: a successful `updateTemplate` leaves every already-minted token's
stored data — name, description, issuer, mint time, template id and session
id — and its ownership record unchanged. -/
theorem C6_updateTemplate_frozen_tokens (sys : SysState) (sender tid : Nat)
    (nm desc : String) (tokenId : Nat)
    (h : (SBTTemplate.updateTemplate sys.tmpl sender tid nm desc).isSome
      = true) :
    ((exec (Op.tmplUpdate sender tid nm desc) sys).tok.sbtData tokenId).name
      = (sys.tok.sbtData tokenId).name ∧
    ((exec (Op.tmplUpdate sender tid nm desc) sys).tok.sbtData
      tokenId).description = (sys.tok.sbtData tokenId).description ∧
    ((exec (Op.tmplUpdate sender tid nm desc) sys).tok.sbtData tokenId).issuer
      = (sys.tok.sbtData tokenId).issuer ∧
    ((exec (Op.tmplUpdate sender tid nm desc) sys).tok.sbtData
      tokenId).mintedAt = (sys.tok.sbtData tokenId).mintedAt ∧
    ((exec (Op.tmplUpdate sender tid nm desc) sys).tok.sbtData
      tokenId).templateId = (sys.tok.sbtData tokenId).templateId ∧
    ((exec (Op.tmplUpdate sender tid nm desc) sys).tok.sbtData
      tokenId).sessionId = (sys.tok.sbtData tokenId).sessionId ∧
    (exec (Op.tmplUpdate sender tid nm desc) sys).tok.tokenOwner tokenId
      = sys.tok.tokenOwner tokenId := by
  unfold exec apply
  cases hup : SBTTemplate.updateTemplate sys.tmpl sender tid nm desc with
  | none => simp [hup]
  | some t2 => simp [hup]

/-- C6 witness: updating template 1 after token 1 was minted from it leaves
the token's stored name unchanged. -/
theorem C6_witness :
    ((SBTTemplate.updateTemplate c5Pre.tmpl 1 1 "Updated" "NewDesc").isSome
      = true) ∧
    ((exec (Op.tmplUpdate 1 1 "Updated" "NewDesc") c5Pre).tok.sbtData 1).name
      = (c5Pre.tok.sbtData 1).name :=
  ⟨by decide,
   (C6_updateTemplate_frozen_tokens c5Pre 1 1 "Updated" "NewDesc" 1
     (by decide)).1⟩

/-- C7: `removeIssuer` reverts on a not-currently-authorized identity and on
the bootstrap administrator, so the administrator stays authorized in every
reachable state; a successful removal leaves the target deauthorized. -/
theorem C7_removeIssuer_correct :
    (∀ (st : RegistryState) (sender issuer : Nat),
      (st.issuers issuer).authorized = false →
      IssuerRegistry.removeIssuer st sender issuer = none) ∧
    (∀ (st : RegistryState) (sender : Nat),
      IssuerRegistry.removeIssuer st sender st.owner = none) ∧
    (∀ (st : RegistryState) (sender issuer : Nat),
      (IssuerRegistry.removeIssuer st sender issuer).isSome = true →
      IssuerRegistry.isAuthorizedIssuer
        ((IssuerRegistry.removeIssuer st sender issuer).getD st) issuer
        = false) ∧
    (∀ (ops : List Op) (admin tokenAddr t0 : Nat),
      IssuerRegistry.isAuthorizedIssuer
        (run ops (init admin tokenAddr t0)).registry admin = true) := by
  refine ⟨?_, ?_, ?_, ?_⟩
  · intro st sender issuer hn
    unfold IssuerRegistry.removeIssuer
    split_ifs <;> simp_all
  · intro st sender
    unfold IssuerRegistry.removeIssuer
    split_ifs <;> simp_all
  · intro st sender issuer h
    obtain ⟨st2, hst2⟩ := Option.isSome_iff_exists.mp h
    obtain ⟨f1, f2, f3, f4, f5⟩ := removeIssuer_eq_some _ _ _ _ hst2
    simp only [hst2, Option.getD_some]
    show (st2.issuers issuer).authorized = false
    rw [f5]
    simp [upd_same]
  · intro ops admin tokenAddr t0
    exact (run_SysInv admin ops (init admin tokenAddr t0)
      (init_SysInv admin tokenAddr t0)).1.2

/-- C7 witness: removing an unknown identity fails; removing a freshly added
issuer succeeds and leaves it deauthorized. -/
theorem C7_witness :
    IssuerRegistry.removeIssuer base.registry 1 5 = none ∧
    IssuerRegistry.isAuthorizedIssuer
      ((IssuerRegistry.removeIssuer regWith5 1 5).getD regWith5) 5 = false :=
  ⟨C7_removeIssuer_correct.1 base.registry 1 5 (by decide),
   C7_removeIssuer_correct.2.2.1 regWith5 1 5 (by decide)⟩

/-- C8: `claimFromSession` needs no issuer credential: its success is
independent of the entire issuer registry; it succeeds only under the
session-claimability and per-session uniqueness checks applied to the
caller; and the minted token records the session's issuer, not the caller. -/
theorem C8_claimFromSession_no_credential (sys : SysState)
    (reg2 : RegistryState) (caller sid now : Nat) :
    ((SBTToken.claimFromSession { sys with registry := reg2 } caller sid
      now).isSome = (SBTToken.claimFromSession sys caller sid now).isSome) ∧
    ((SBTToken.claimFromSession sys caller sid now).isSome = true →
      SBTSession.isSessionClaimable sys.sess sid now = true ∧
      sys.tok.hasTokenFromSession caller sid = false) ∧
    ((SBTToken.claimFromSession sys caller sid now).isSome = true →
      (((SBTToken.claimFromSession sys caller sid now).getD sys).tok.sbtData
        sys.tok.nextTokenId).issuer = (sys.sess.sessions sid).issuer) := by
  refine ⟨?_, ?_, ?_⟩
  · have e1 : ({ sys with registry := reg2 } : SysState).tok = sys.tok := rfl
    have e2 : ({ sys with registry := reg2 } : SysState).sess = sys.sess := rfl
    have e3 : ({ sys with registry := reg2 } : SysState).tmpl = sys.tmpl := rfl
    have e4 : ({ sys with registry := reg2 } : SysState).tokenAddr
      = sys.tokenAddr := rfl
    unfold SBTToken.claimFromSession
    simp only [e1, e2, e3, e4]
    by_cases h1 : sys.tok.paused = true
    · simp [h1]
    by_cases h2 : SBTSession.isSessionClaimable sys.sess sid now = true
    case neg => simp [h1, h2]
    by_cases h3 : sys.tok.hasTokenFromSession caller sid = true
    · simp [h1, h2, h3]
    cases hGS : SBTSession.getSession sys.sess sid with
    | none => simp [h1, h2, h3, hGS]
    | some s =>
      cases hGT : SBTTemplate.getTemplate sys.tmpl s.templateId with
      | none => simp [h1, h2, h3, hGS, hGT]
      | some t =>
        cases hSM : SBTToken.safeMint
            { sys.tok with nextTokenId := sys.tok.nextTokenId + 1 }
            caller sys.tok.nextTokenId with
        | none => simp [h1, h2, h3, hGS, hGT, hSM]
        | some tk =>
          cases hI : SBTSession.incrementMintCount sys.sess sys.tokenAddr
              sid with
          | none => simp [h1, h2, h3, hGS, hGT, hSM, hI]
          | some ss => simp [h1, h2, h3, hGS, hGT, hSM, hI]
  · intro h
    obtain ⟨s2, hs2⟩ := Option.isSome_iff_exists.mp h
    obtain ⟨t, ss, _, hclaim, hmk, _, _, _, _, _⟩ :=
      claimFromSession_eq_some _ _ _ _ _ hs2
    exact ⟨hclaim, hmk⟩
  · intro h
    obtain ⟨s2, hs2⟩ := Option.isSome_iff_exists.mp h
    obtain ⟨t, ss, _, hclaim, hmk, hT, hz, hfree, hI, hEq⟩ :=
      claimFromSession_eq_some _ _ _ _ _ hs2
    subst hEq
    simp only [hs2, Option.getD_some]
    simp [upd_same]

/-- C8 witness: user 7 — not an authorized issuer — self-claims from session
42 and the minted token records the session issuer (account 1). -/
theorem C8_witness :
    (((SBTToken.claimFromSession withSession 7 42 0).getD
      withSession).tok.sbtData withSession.tok.nextTokenId).issuer
      = (withSession.sess.sessions 42).issuer :=
  (C8_claimFromSession_no_credential withSession base.registry 7 42 0).2.2
    (by decide)

/-- C9 counterexample: the pause flags are per-contract, not global.  In the
reachable state `c9Post` the Issuer Registry is paused, yet
`mintFromTemplate` (a mutating entry point of a downstream component)
still succeeds. -/
theorem C9_counterexample :
    c9Post.registry.paused = true ∧
    (SBTToken.mintFromTemplate c9Post 1 7 1 0).isSome = true := by
  exact ⟨by decide, by decide⟩

/-- C9 (amended): each contract carries its own pause flag which gates
exactly its own pause-guarded mutating entry points — registry issuer
management, template creation and state changes, session creation/ending,
and all mint/revoke paths of the token contract; pausing the registry does
not block the downstream contracts (final conjunct). -/
theorem C9_amended_per_contract_pause :
    (∀ (st : RegistryState) (sender issuer : Nat) (nm org : String)
        (now : Nat), st.paused = true →
      IssuerRegistry.addIssuer st sender issuer nm org now = none ∧
      IssuerRegistry.removeIssuer st sender issuer = none ∧
      IssuerRegistry.updateIssuer st sender issuer nm org = none) ∧
    (∀ (reg : RegistryState) (st : TemplateState) (sender tid : Nat)
        (nm desc : String) (now : Nat), st.paused = true →
      SBTTemplate.createTemplate reg st sender nm desc now = none ∧
      SBTTemplate.updateTemplate st sender tid nm desc = none ∧
      SBTTemplate.deactivateTemplate st sender tid = none ∧
      SBTTemplate.reactivateTemplate st sender tid = none) ∧
    (∀ (reg : RegistryState) (tmpl : TemplateState) (st : SessionState)
        (sender tid maxM dur newId now sid : Nat) (title : String),
      st.paused = true →
      SBTSession.createSession reg tmpl st sender tid maxM dur title newId
        now = none ∧
      SBTSession.endSession st sender sid = none) ∧
    (∀ (sys : SysState) (sender toAddr tid sid tokenId now : Nat)
        (recipients : List Nat), sys.tok.paused = true →
      SBTToken.mintFromTemplate sys sender toAddr tid now = none ∧
      SBTToken.mintFromSession sys sender toAddr sid now = none ∧
      SBTToken.batchMintFromSession sys sender recipients sid now = none ∧
      SBTToken.claimFromSession sys sender sid now = none ∧
      SBTToken.revokeSBT sys sender tokenId = none) ∧
    (c9Post.registry.paused = true ∧
      (SBTToken.mintFromTemplate c9Post 1 7 1 0).isSome = true) := by
  refine ⟨?_, ?_, ?_, ?_, by decide, by decide⟩
  · intro st sender issuer nm org now hp
    refine ⟨?_, ?_, ?_⟩
    · unfold IssuerRegistry.addIssuer
      split_ifs <;> simp_all
    · unfold IssuerRegistry.removeIssuer
      split_ifs <;> simp_all
    · unfold IssuerRegistry.updateIssuer
      split_ifs <;> simp_all
  · intro reg st sender tid nm desc now hp
    refine ⟨?_, ?_, ?_, ?_⟩
    · unfold SBTTemplate.createTemplate
      split_ifs <;> simp_all
    · unfold SBTTemplate.updateTemplate
      split_ifs <;> simp_all
    · unfold SBTTemplate.deactivateTemplate
      split_ifs <;> simp_all
    · unfold SBTTemplate.reactivateTemplate
      split_ifs <;> simp_all
  · intro reg tmpl st sender tid maxM dur newId now sid title hp
    refine ⟨?_, ?_⟩
    · unfold SBTSession.createSession
      split_ifs <;> simp_all
    · unfold SBTSession.endSession
      split_ifs <;> simp_all
  · intro sys sender toAddr tid sid tokenId now recipients hp
    refine ⟨?_, ?_, ?_, ?_, ?_⟩
    · unfold SBTToken.mintFromTemplate
      split_ifs <;> simp_all
    · unfold SBTToken.mintFromSession
      split_ifs <;> simp_all
    · unfold SBTToken.batchMintFromSession
      split_ifs <;> simp_all
    · unfold SBTToken.claimFromSession
      split_ifs <;> simp_all
    · unfold SBTToken.revokeSBT
      split_ifs <;> simp_all

/-- C9 witness: with all four contracts paused, one pause-guarded entry
point of each contract reverts. -/
theorem C9_witness :
    IssuerRegistry.addIssuer pausedAll.registry 1 5 "NewIss" "Org" 2
      = none ∧
    SBTTemplate.createTemplate pausedAll.registry pausedAll.tmpl 1 "Nm" "Ds"
      2 = none ∧
    SBTSession.endSession pausedAll.sess 1 42 = none ∧
    SBTToken.claimFromSession pausedAll 7 42 2 = none :=
  ⟨(C9_amended_per_contract_pause.1 pausedAll.registry 1 5 "NewIss" "Org" 2
      (by decide)).1,
   (C9_amended_per_contract_pause.2.1 pausedAll.registry pausedAll.tmpl 1 0
      "Nm" "Ds" 2 (by decide)).1,
   (C9_amended_per_contract_pause.2.2.1 pausedAll.registry pausedAll.tmpl
      pausedAll.sess 1 0 0 0 0 2 42 "T" (by decide)).2,
   (C9_amended_per_contract_pause.2.2.2.1 pausedAll 7 0 0 42 0 2 []
      (by decide)).2.2.2.1⟩

/-- C10: deactivating a template does not block session-based minting: with
the session's template currently inactive, `claimFromSession` still
succeeds — copying the inactive template's current text into the token —
and the issuer-driven `mintFromSession` and `batchMintFromSession` succeed
under their own caller-side conditions; none of the hypotheses mentions the
template's `active` flag being set. -/
theorem C10_inactive_template_session_minting (sys : SysState)
    (caller toAddr sid now : Nat)
    (hInactive : (sys.tmpl.templates
      (sys.sess.sessions sid).templateId).active = false)
    (hPaused : sys.tok.paused = false)
    (hclaim : SBTSession.isSessionClaimable sys.sess sid now = true)
    (hmk : sys.tok.hasTokenFromSession caller sid = false)
    (hex : SBTTemplate.templateExists sys.tmpl
      (sys.sess.sessions sid).templateId)
    (hz : caller ≠ 0)
    (hFresh : sys.tok.tokenOwner sys.tok.nextTokenId = 0)
    (hlink : sys.sess.sbtTokenContract = sys.tokenAddr) :
    (SBTToken.claimFromSession sys caller sid now).isSome = true ∧
    (((SBTToken.claimFromSession sys caller sid now).getD sys).tok.sbtData
      sys.tok.nextTokenId).name
      = (sys.tmpl.templates (sys.sess.sessions sid).templateId).name ∧
    (((SBTToken.claimFromSession sys caller sid now).getD sys).tok.sbtData
      sys.tok.nextTokenId).description
      = (sys.tmpl.templates (sys.sess.sessions sid).templateId).description ∧
    (IssuerRegistry.isAuthorizedIssuer sys.registry
        (sys.sess.sessions sid).issuer = true →
      toAddr ≠ 0 → sys.tok.hasTokenFromSession toAddr sid = false →
      (SBTToken.mintFromSession sys (sys.sess.sessions sid).issuer toAddr
        sid now).isSome = true ∧
      (SBTToken.batchMintFromSession sys (sys.sess.sessions sid).issuer
        [toAddr] sid now).isSome = true) := by
  have hsome := claimFromSession_isSome sys caller sid now hPaused hclaim
    hmk hex hz hFresh hlink
  obtain ⟨s2, hs2⟩ := Option.isSome_iff_exists.mp hsome
  obtain ⟨t, ss, _, _, _, hT, _, _, _, hEq⟩ :=
    claimFromSession_eq_some _ _ _ _ _ hs2
  obtain ⟨hteq, _⟩ := getTemplate_eq_some _ _ _ hT
  subst hEq
  refine ⟨hsome, ?_, ?_, ?_⟩
  · simp only [hs2, Option.getD_some]
    simp [upd_same, hteq]
  · simp only [hs2, Option.getD_some]
    simp [upd_same, hteq]
  · intro hAuth hz2 hmk2
    exact ⟨mintFromSession_isSome sys _ toAddr sid now hAuth hPaused hz2
        hclaim hmk2 rfl hex hFresh hlink,
      batch_single_isSome sys _ toAddr sid now hAuth hPaused hz2 hclaim
        hmk2 rfl hex hFresh hlink⟩

/-- C10 witness: template 1 is deactivated in `c10Pre`, yet user 7 can still
self-claim from session 42. -/
theorem C10_witness :
    (c10Pre.tmpl.templates 1).active = false ∧
    (SBTToken.claimFromSession c10Pre 7 42 0).isSome = true :=
  ⟨by decide,
   (C10_inactive_template_session_minting c10Pre 7 8 42 0 (by decide)
      (by decide) (by decide) (by decide) (by decide) (by decide)
      (by decide) (by decide)).1⟩

end SoulNad
